import Mathlib

/-!
Shallow embedding of `uplink.py`, a script that polls the Meraki REST API
and writes two CSV reports (appliances / other devices).

Modelling conventions:
* JSON values (`json.loads` results, Python values flowing into rows) are
  `JValue`; JSON numbers are modelled as integers (no claim depends on
  float formatting); JSON `null` and Python `None` are both `JValue.null`.
* Python dicts are association lists `List (String × key)` looked up with
  `dictGet` (a `none` result models a raised `KeyError`) and assigned with
  `dictSet` (replace in place or append, matching dict insertion order).
* Fallible code returns `Option`: `none` models an uncaught exception.
* The HTTP transport inside `jsonload` is an oracle `Nat → TransportResult`
  giving, per attempt, either one of the caught transient exceptions or a
  response body; the external `json.loads` is a parameter
  `loads : String → Option JValue` (`none` = parse error raised).
-/

/-- JSON values as returned by `json.loads` / Python values put in rows. -/
inductive JValue : Type where
  | null : JValue
  | bool : Bool → JValue
  | num : Int → JValue
  | str : String → JValue
  | arr : List JValue → JValue
  | obj : List (String × JValue) → JValue

/-- Python `repr()` rendering of a JSON-derived value (containers rendered
with quoted strings, approximating CPython's output; no claim depends on
container rendering). -/
def pyRepr : JValue → String
  | .null => "None"
  | .bool true => "True"
  | .bool false => "False"
  | .num n => toString n
  | .str s => "\x27" ++ s ++ "\x27"
  | .arr xs => "[" ++ String.intercalate ", " (xs.attach.map (fun x => pyRepr x.1)) ++ "]"
  | .obj fs => "\x7b" ++ String.intercalate ", " (fs.attach.map (fun p => "\x27" ++ p.1.1 ++ "\x27: " ++ pyRepr p.1.2)) ++ "\x7d"
decreasing_by
  · simp only [JValue.arr.sizeOf_spec]
    have := List.sizeOf_lt_of_mem x.2
    omega
  · simp only [JValue.obj.sizeOf_spec]
    obtain ⟨⟨k, v⟩, hp⟩ := p
    have := List.sizeOf_lt_of_mem hp
    simp only [Prod.mk.sizeOf_spec] at this
    simp only
    omega

/-- Python `str()`: identity on strings, `repr`-like elsewhere. -/
def pyStr (v : JValue) : String :=
  match v with
  | .str s => s
  | _ => pyRepr v

/-- Python dict lookup `d[k]`; `none` models a raised `KeyError`. -/
def dictGet {α : Type} (d : List (String × α)) (k : String) : Option α :=
  match d with
  | [] => none
  | (k2, v) :: rest => if k2 = k then some v else dictGet rest k

/-- Python dict assignment `d[k] = v`: replaces the existing binding in
place, or appends a new one (dict insertion-order semantics). -/
def dictSet {α : Type} (d : List (String × α)) (k : String) (v : α) : List (String × α) :=
  match d with
  | [] => [(k, v)]
  | (k2, v2) :: rest => if k2 = k then (k, v) :: rest else (k2, v2) :: dictSet rest k v

/-- Python `dict.fromkeys(ks)`: every key bound to `None`. -/
def fromkeysNull (ks : List String) : List (String × JValue) :=
  ks.map (fun k => (k, JValue.null))

/-- Outcome of one `session.get(...).text` call inside `jsonload`: either
one of the caught transient exceptions (`ConnectionError`,
`RemoteDisconnected`, `ProtocolError`, `HTTPException`) or a response
body. -/
inductive TransportResult : Type where
  | raise : TransportResult
  | body : String → TransportResult

/-- The retry loop of `jsonload` (uplink.py lines 68-78).  State:
`attempt` = transport calls made so far, `jsondata` = current body (starts
`""`), `sleeps` = `time.sleep(1)` calls so far; the last argument is the
`retries` counter (starts at 3).  Loop condition:
`not 0 < len(jsondata) and 0 < retries`.  On an exception: sleep one unit;
otherwise store the body; in both cases decrement `retries`.  Returns the
final `(jsondata, sleeps, attempts)`. -/
def jsonloadLoop (t : Nat → TransportResult) (attempt : Nat) (jsondata : String) (sleeps : Nat) : Nat → String × Nat × Nat
  | 0 => (jsondata, sleeps, attempt)
  | retries + 1 =>
    if jsondata.length = 0 then
      match t attempt with
      | .raise => jsonloadLoop t (attempt + 1) jsondata (sleeps + 1) retries
      | .body b => jsonloadLoop t (attempt + 1) b sleeps retries
    else (jsondata, sleeps, attempt)

/-- `jsonload(path)` (uplink.py lines 65-79): run the retry loop starting
from the empty string with 3 retries, then `json.loads` the final body.
`loads` models the external `json.loads`; a `none` parse result models the
raised parse error.  Returns (parse result, sleeps, transport attempts). -/
def jsonload (loads : String → Option JValue) (t : Nat → TransportResult) : Option JValue × Nat × Nat :=
  match jsonloadLoop t 0 "" 0 3 with
  | (jd, sleeps, a) => (loads jd, sleeps, a)

/-- Python `v == s` for a JSON value against a string literal: true iff the
value is that exact string (a non-string compares unequal, no error). -/
def isStrEq (v : JValue) (s : String) : Bool :=
  match v with
  | .str s2 => s2 = s
  | _ => false

/-- The list comprehension in `get_network`:
`[element for element in networks if network_id == element[id]]`.
`none` models a `KeyError` raised while evaluating `element[id]`. -/
def matchingNetworks (network_id : String) : List (List (String × JValue)) → Option (List (List (String × JValue)))
  | [] => some []
  | n :: rest =>
    match dictGet n "id" with
    | none => none
    | some v =>
      match matchingNetworks network_id rest with
      | none => none
      | some ms => some (if isStrEq v network_id then n :: ms else ms)

/-- `get_network(network_id, networks)` (uplink.py lines 62-63): first
element of the comprehension; `none` also models the `IndexError` raised
by `[0]` on an empty match list. -/
def get_network (network_id : String) (networks : List (List (String × JValue))) : Option (List (String × JValue)) :=
  match matchingNetworks network_id networks with
  | none => none
  | some ms => ms.head?

/-- An inventory record, projected to the fields the script accesses
(`serial`, `mac`, `model` must be strings for the code's indexing and
concatenation to succeed; `networkId` is nullable). -/
structure Device : Type where
  serial : String
  mac : String
  model : String
  networkId : Option String
deriving DecidableEq

/-- `device[model][:2] in (MX, Z1, Z3, vM)` (uplink.py line 100). -/
def isApplianceModel (model : String) : Bool :=
  ["MX", "Z1", "Z3", "vM"].contains (model.take 2)

/-- `appliances = [device for device in inventory if device[model][:2] in
(MX, Z1, Z3, vM) and device[networkId] is not None]` (line 100). -/
def appliances (inventory : List Device) : List Device :=
  inventory.filter (fun d => isApplianceModel d.model && d.networkId.isSome)

/-- `devices = [device for device in inventory if device not in appliances
and device[networkId] is not None]` (line 101). -/
def devices (inventory : List Device) : List Device :=
  inventory.filter (fun d => !(appliances inventory).contains d && d.networkId.isSome)

/-- The three per-interface buckets of `uplinks_info` (lines 129-132). -/
structure UplinksInfo : Type where
  wan1 : List (String × JValue)
  wan2 : List (String × JValue)
  cellular : List (String × JValue)

/-- `uplinks_info` after the three `dict.fromkeys` initialisations
(uplink.py lines 129-132). -/
def uplinks_info_init : UplinksInfo where
  wan1 := fromkeysNull ["interface", "status", "ip", "gateway", "publicIp", "dns", "usingStaticIp"]
  wan2 := fromkeysNull ["interface", "status", "ip", "gateway", "publicIp", "dns", "usingStaticIp"]
  cellular := fromkeysNull ["interface", "status", "ip", "provider", "publicIp", "model", "connectionType"]

/-- `for key in uplink.keys(): bucket[key] = str(uplink[key])`
(lines 136-137 and analogues). -/
def copyFields (bucket : List (String × JValue)) (fields : List (String × JValue)) : List (String × JValue) :=
  fields.foldl (fun b p => dictSet b p.1 (JValue.str (pyStr p.2))) bucket

/-- One iteration of the uplink dispatch loop (lines 134-143): read
`uplink[interface]` (KeyError if absent, and a non-dict entry cannot be
indexed at all — both model as `none`), then the `if`/`elif` chain on the
labels `WAN 1`, `WAN 2`, `Cellular`; an unrecognized label falls through
with no effect. -/
def applyUplink (info : UplinksInfo) (u : JValue) : Option UplinksInfo :=
  match u with
  | .obj fields =>
    match dictGet fields "interface" with
    | none => none
    | some v =>
      if isStrEq v "WAN 1" then some { info with wan1 := copyFields info.wan1 fields }
      else if isStrEq v "WAN 2" then some { info with wan2 := copyFields info.wan2 fields }
      else if isStrEq v "Cellular" then some { info with cellular := copyFields info.cellular fields }
      else some info
  | _ => none

/-- `for uplink in uplinks: ...` — the whole dispatch loop (lines 134-143). -/
def uplinks_dispatch (info : UplinksInfo) : List JValue → Option UplinksInfo
  | [] => some info
  | u :: rest =>
    match applyUplink info u with
    | none => none
    | some info2 => uplinks_dispatch info2 rest

/-- The `perfscore` variable (lines 124-127):
`try: perfscore = jsonload(...)[perfScore] except: perfscore = None`.
Input is the `jsonload` result (`none` = any exception during the fetch).
A missing `perfScore` key, a non-dict response (both raise, caught by the
bare `except`) and a JSON `null` score all leave `perfscore = None`. -/
def perfscoreVal (perfFetch : Option JValue) : Option JValue :=
  match perfFetch with
  | some (.obj fields) =>
    match dictGet fields "perfScore" with
    | none => none
    | some .null => none
    | some v => some v
  | _ => none

/-- `device_name` (lines 120-123): `device_info[name]` if the key exists,
else `device_info[serial]` (KeyError if that is also missing). -/
def deviceNameOf (device_info : List (String × JValue)) : Option JValue :=
  match dictGet device_info "name" with
  | some v => some v
  | none => dictGet device_info "serial"

/-- A `csvline` dict handed to `writer.writerow`. -/
abbrev Row := List (String × JValue)

/-- The six values the `csvline` literal reads out of a WAN bucket. -/
structure WanFields : Type where
  status : JValue
  ip : JValue
  gateway : JValue
  publicIp : JValue
  dns : JValue
  usingStaticIp : JValue

/-- The six values the `csvline` literal reads out of the Cellular bucket. -/
structure CellularFields : Type where
  status : JValue
  ip : JValue
  provider : JValue
  publicIp : JValue
  model : JValue
  connectionType : JValue

/-- The six lookups `uplinks_info[WAN...][...]` of the `csvline` literal;
each is dict indexing and so can raise (`none`). -/
def readWan (b : List (String × JValue)) : Option WanFields :=
  (dictGet b "status").bind fun status =>
  (dictGet b "ip").bind fun ip =>
  (dictGet b "gateway").bind fun gateway =>
  (dictGet b "publicIp").bind fun publicIp =>
  (dictGet b "dns").bind fun dns =>
  (dictGet b "usingStaticIp").bind fun usingStaticIp =>
  some ⟨status, ip, gateway, publicIp, dns, usingStaticIp⟩

/-- The six lookups `uplinks_info[Cellular][...]` of the `csvline` literal. -/
def readCellular (b : List (String × JValue)) : Option CellularFields :=
  (dictGet b "status").bind fun status =>
  (dictGet b "ip").bind fun ip =>
  (dictGet b "provider").bind fun provider =>
  (dictGet b "publicIp").bind fun publicIp =>
  (dictGet b "model").bind fun model =>
  (dictGet b "connectionType").bind fun connectionType =>
  some ⟨status, ip, provider, publicIp, model, connectionType⟩

/-- The unconditional part of the appliances `csvline` dict literal
(lines 144-171), with the bucket lookups already performed. -/
def applianceBase (tz network_name device_name : JValue) (appl : Device) (firmware lat lng : JValue) (w1 w2 : WanFields) (c : CellularFields) : Row :=
  [("TimeZone", JValue.str (pyStr tz)),
   ("Network", network_name),
   ("Device", device_name),
   ("Serial", JValue.str appl.serial),
   ("MAC", JValue.str appl.mac),
   ("Model", JValue.str appl.model),
   ("firmware", firmware),
   ("geolocation", JValue.str ("https://www.google.com/maps/@" ++ pyStr lat ++ "," ++ pyStr lng ++ ",15z")),
   ("WAN1 Status", w1.status),
   ("WAN1 IP", w1.ip),
   ("WAN1 Gateway", w1.gateway),
   ("WAN1 Public IP", w1.publicIp),
   ("WAN1 DNS", w1.dns),
   ("WAN1 Static", w1.usingStaticIp),
   ("WAN2 Status", w2.status),
   ("WAN2 IP", w2.ip),
   ("WAN2 Gateway", w2.gateway),
   ("WAN2 Public IP", w2.publicIp),
   ("WAN2 DNS", w2.dns),
   ("WAN2 Static", w2.usingStaticIp),
   ("Cellular Status", c.status),
   ("Cellular IP", c.ip),
   ("Cellular Provider", c.provider),
   ("Cellular Public IP", c.publicIp),
   ("Cellular Model", c.model),
   ("Cellular Connection", c.connectionType)]

/-- The `csvline` of the appliances loop (lines 144-173), including the
conditional `csvline[Performance] = perfscore`. -/
def buildApplianceRow (tz network_name device_name : JValue) (appl : Device) (firmware lat lng : JValue) (info : UplinksInfo) (perfscore : Option JValue) : Option Row :=
  (readWan info.wan1).bind fun w1 =>
  (readWan info.wan2).bind fun w2 =>
  (readCellular info.cellular).bind fun c =>
  match perfscore with
  | some p => some (dictSet (applianceBase tz network_name device_name appl firmware lat lng w1 w2 c) "Performance" p)
  | none => some (applianceBase tz network_name device_name appl firmware lat lng w1 w2 c)

/-- One iteration of the appliances loop (lines 112-174), taking the four
fetch results as inputs: the resolved `network` record, the `device_info`
record, the raw perfscore fetch result, and the raw uplink-list fetch
result.  `none` models an uncaught exception aborting the run; `some row`
is the single row passed to `writer.writerow`. -/
def applianceIteration (network device_info : Row) (appl : Device) (perfFetch : Option JValue) (uplinksRes : JValue) : Option Row :=
  match dictGet network "name" with
  | none => none
  | some network_name =>
    match deviceNameOf device_info with
    | none => none
    | some device_name =>
      match uplinksRes with
      | .arr uplinks =>
        match uplinks_dispatch uplinks_info_init uplinks with
        | none => none
        | some info =>
          match dictGet network "timeZone", dictGet device_info "firmware", dictGet device_info "lat", dictGet device_info "lng" with
          | some tz, some firmware, some lat, some lng =>
            buildApplianceRow tz network_name device_name appl firmware lat lng info (perfscoreVal perfFetch)
          | _, _, _, _ => none
      | _ => none

/-- The per-appliance fetch results feeding one iteration of the loop. -/
structure ApplInput : Type where
  network : Row
  device_info : Row
  dev : Device
  perfFetch : Option JValue
  uplinksRes : JValue

/-- The whole appliances loop: the list of rows written to the appliances
report, in device order; `none` models an exception aborting the run. -/
def applianceLoop : List ApplInput → Option (List Row)
  | [] => some []
  | i :: rest =>
    match applianceIteration i.network i.device_info i.dev i.perfFetch i.uplinksRes with
    | none => none
    | some row =>
      match applianceLoop rest with
      | none => none
      | some rows => some (row :: rows)

/-- `fieldnames` of the appliances report (line 107). -/
def applianceFieldnames : List String :=
  ["TimeZone", "Network", "Device", "Serial", "MAC", "Model", "firmware", "geolocation",
   "WAN1 Status", "WAN1 IP", "WAN1 Gateway", "WAN1 Public IP", "WAN1 DNS", "WAN1 Static",
   "WAN2 Status", "WAN2 IP", "WAN2 Gateway", "WAN2 Public IP", "WAN2 DNS", "WAN2 Static",
   "Cellular Status", "Cellular IP", "Cellular Provider", "Cellular Public IP",
   "Cellular Model", "Cellular Connection", "Performance"]

/-- `uplink_info = dict.fromkeys([...])` of the other-devices loop
(line 197). -/
def otherInitBucket : List (String × JValue) :=
  fromkeysNull ["interface", "status", "ip", "gateway", "publicIp", "dns", "vlan", "usingStaticIp"]

/-- The seven values the other-devices `csvline` reads from `uplink_info`. -/
structure OtherFields : Type where
  status : JValue
  ip : JValue
  gateway : JValue
  publicIp : JValue
  dns : JValue
  vlan : JValue
  usingStaticIp : JValue

/-- The seven lookups `uplink_info[...]` of the other-devices `csvline`. -/
def readOther (ui : List (String × JValue)) : Option OtherFields :=
  (dictGet ui "status").bind fun status =>
  (dictGet ui "ip").bind fun ip =>
  (dictGet ui "gateway").bind fun gateway =>
  (dictGet ui "publicIp").bind fun publicIp =>
  (dictGet ui "dns").bind fun dns =>
  (dictGet ui "vlan").bind fun vlan =>
  (dictGet ui "usingStaticIp").bind fun usingStaticIp =>
  some ⟨status, ip, gateway, publicIp, dns, vlan, usingStaticIp⟩

/-- The `csvline` literal of the other-devices loop (lines 208-222). -/
def buildOtherRow (tz network_name device_name : JValue) (dev : Device) (ui : List (String × JValue)) : Option Row :=
  (readOther ui).bind fun o =>
  some [
    ("TimeZone", JValue.str (pyStr tz)),
    ("Network", network_name),
    ("Device", device_name),
    ("Serial", JValue.str dev.serial),
    ("MAC", JValue.str dev.mac),
    ("Model", JValue.str dev.model),
    ("Status", o.status),
    ("IP", o.ip),
    ("Gateway", o.gateway),
    ("Public IP", o.publicIp),
    ("DNS", o.dns),
    ("VLAN", o.vlan),
    ("Static", o.usingStaticIp)]

/-- Result of one iteration of the other-devices loop: an uncaught
exception, a `continue` (no row), or one row written. -/
inductive IterResult : Type where
  | err : IterResult
  | skip : IterResult
  | row : Row → IterResult

/-- One iteration of the other-devices loop (lines 187-223): resolve the
network name and device name, then `if uplink == []: continue` else take
`uplink[0]`, copy its fields into `uplink_info` and build the row.  A
non-list uplink result, or a first entry that is not a dict, raises. -/
def otherIteration (network device_info : Row) (dev : Device) (uplinkRes : JValue) : IterResult :=
  match dictGet network "name" with
  | none => .err
  | some network_name =>
    match deviceNameOf device_info with
    | none => .err
    | some device_name =>
      match uplinkRes with
      | .arr [] => .skip
      | .arr (u :: _) =>
        match u with
        | .obj fields =>
          match dictGet network "timeZone" with
          | none => .err
          | some tz =>
            match buildOtherRow tz network_name device_name dev (copyFields otherInitBucket fields) with
            | none => .err
            | some r => .row r
        | _ => .err
      | _ => .err

/-- The per-device fetch results feeding one iteration of the
other-devices loop. -/
structure OtherInput : Type where
  network : Row
  device_info : Row
  dev : Device
  uplinkRes : JValue

/-- The whole other-devices loop: rows written to the second report in
device order; a skipped device contributes no row; `none` models an
exception aborting the run. -/
def otherLoop : List OtherInput → Option (List Row)
  | [] => some []
  | i :: rest =>
    match otherIteration i.network i.device_info i.dev i.uplinkRes with
    | .err => none
    | .skip => otherLoop rest
    | .row r =>
      match otherLoop rest with
      | none => none
      | some rows => some (r :: rows)

/-- `fieldnames` of the other-devices report (line 182). -/
def otherFieldnames : List String :=
  ["TimeZone", "Network", "Device", "Serial", "MAC", "Model", "Status", "IP",
   "Gateway", "Public IP", "DNS", "VLAN", "Static"]

/-- How `csv.DictWriter` renders one cell value: Python `None` becomes the
empty field, anything else its `str()`. -/
def renderCell : JValue → String
  | .null => ""
  | v => pyStr v

/-- How `csv.DictWriter` renders one named column of a row: a key missing
from the `csvline` dict falls back to `restval` (the empty string). -/
def renderField (row : Row) (f : String) : String :=
  match dictGet row f with
  | none => ""
  | some v => renderCell v

/-- The full rendered record: one column per field name, in order. -/
def renderRow (fieldnames : List String) (row : Row) : List String :=
  fieldnames.map (renderField row)

/-- The report columns filled from a given uplink `interface` label. -/
def interfaceColumns (label : String) : List String :=
  if label = "WAN 1" then
    ["WAN1 Status", "WAN1 IP", "WAN1 Gateway", "WAN1 Public IP", "WAN1 DNS", "WAN1 Static"]
  else if label = "WAN 2" then
    ["WAN2 Status", "WAN2 IP", "WAN2 Gateway", "WAN2 Public IP", "WAN2 DNS", "WAN2 Static"]
  else if label = "Cellular" then
    ["Cellular Status", "Cellular IP", "Cellular Provider", "Cellular Public IP", "Cellular Model", "Cellular Connection"]
  else []

/-- The bucket of `uplinks_info` addressed by an interface label. -/
def bucketFor (info : UplinksInfo) (label : String) : List (String × JValue) :=
  if label = "WAN 1" then info.wan1
  else if label = "WAN 2" then info.wan2
  else info.cellular

/-- An uplink entry is a dict carrying an `interface` key — the shape the
dispatch loop needs in order not to raise. -/
def goodUplinkEntry (u : JValue) : Bool :=
  match u with
  | .obj fields => (dictGet fields "interface").isSome
  | _ => false

/-- Whether an uplink entry carries exactly this `interface` label. -/
def interfaceLabelIs (u : JValue) (label : String) : Bool :=
  match u with
  | .obj fields =>
    match dictGet fields "interface" with
    | some v => isStrEq v label
    | none => false
  | _ => false

/-- A network record carrying the two keys the loops read. -/
def goodNetwork (n : Row) : Bool :=
  (dictGet n "name").isSome && (dictGet n "timeZone").isSome

/-- A device-detail record carrying what the appliances loop reads. -/
def goodDeviceInfo (di : Row) : Bool :=
  (deviceNameOf di).isSome && (dictGet di "firmware").isSome &&
    (dictGet di "lat").isSome && (dictGet di "lng").isSome

/-- All per-device fetches of one appliance iteration succeeded with the
shapes the code needs. -/
def goodApplInput (i : ApplInput) : Bool :=
  goodNetwork i.network && goodDeviceInfo i.device_info &&
    (match i.uplinksRes with
     | .arr xs => xs.all goodUplinkEntry
     | _ => false)

/-- No entry of this appliance's uplink list carries the given label. -/
def notReported (i : ApplInput) (label : String) : Bool :=
  match i.uplinksRes with
  | .arr xs => xs.all (fun u => !interfaceLabelIs u label)
  | _ => false

/-- Whether a cell value is a Python string. -/
def isStrCell : JValue → Bool
  | .str _ => true
  | _ => false

/-- Number of transport attempts among the first `k` that raised (each
causes exactly one `time.sleep(1)`). -/
def countRaises (t : Nat → TransportResult) (k : Nat) : Nat :=
  ((List.range k).filter (fun i =>
    match t i with
    | .raise => true
    | _ => false)).length

/-- Every value stored in a bucket is Python `None` or a string. -/
def bucketNullOrStr (b : List (String × JValue)) : Prop :=
  ∀ k v, dictGet b k = some v → v = JValue.null ∨ ∃ s, v = JValue.str s

/-! ## Association-list (Python dict) lemmas -/

theorem dictGet_dictSet {α : Type} (d : List (String × α)) (k k2 : String) (v : α) :
    dictGet (dictSet d k v) k2 = if k = k2 then some v else dictGet d k2 := by
  induction d with
  | nil => simp [dictGet, dictSet]
  | cons p rest ih =>
    obtain ⟨a, w⟩ := p
    by_cases hak : a = k
    · subst hak
      by_cases hk2 : a = k2 <;> simp [dictGet, dictSet, hk2]
    · by_cases hk2 : a = k2
      · subst hk2
        have hka : ¬ k = a := fun h => hak h.symm
        simp [dictGet, dictSet, hak, hka]
      · simp [dictGet, dictSet, hak, hk2, ih]

theorem copyFields_cons (b : List (String × JValue)) (p : String × JValue) (rest : List (String × JValue)) :
    copyFields b (p :: rest) = copyFields (dictSet b p.1 (JValue.str (pyStr p.2))) rest := rfl

theorem dictGet_copyFields_not_mem (fields : List (String × JValue)) (b : List (String × JValue)) (k : String)
    (h : ∀ p ∈ fields, p.1 ≠ k) :
    dictGet (copyFields b fields) k = dictGet b k := by
  induction fields generalizing b with
  | nil => rfl
  | cons p rest ih =>
    rw [copyFields_cons, ih _ (fun q hq => h q (by simp [hq])), dictGet_dictSet]
    simp [h p (by simp)]

theorem dictGet_copyFields_mem (fields : List (String × JValue)) (b : List (String × JValue)) (k : String) (v : JValue)
    (hnd : (fields.map Prod.fst).Nodup) (hm : (k, v) ∈ fields) :
    dictGet (copyFields b fields) k = some (JValue.str (pyStr v)) := by
  induction fields generalizing b with
  | nil => cases hm
  | cons p rest ih =>
    rw [copyFields_cons]
    rcases List.mem_cons.mp hm with heq | hmem
    · have hnotin : p.1 ∉ rest.map Prod.fst := (List.nodup_cons.mp hnd).1
      have hk : ∀ q ∈ rest, q.1 ≠ k := by
        intro q hq hqk
        apply hnotin
        rw [← heq]
        exact List.mem_map.mpr ⟨q, hq, hqk⟩
      rw [dictGet_copyFields_not_mem rest _ k hk, ← heq, dictGet_dictSet]
      simp
    · exact ih _ (List.nodup_cons.mp hnd).2 hmem

theorem dictGet_copyFields_isSome (fields : List (String × JValue)) (b : List (String × JValue)) (k : String)
    (h : (dictGet b k).isSome) :
    (dictGet (copyFields b fields) k).isSome := by
  induction fields generalizing b with
  | nil => exact h
  | cons p rest ih =>
    rw [copyFields_cons]
    apply ih
    rw [dictGet_dictSet]
    split <;> simp_all

theorem bucketNullOrStr_dictSet (b : List (String × JValue)) (k : String) (s : String)
    (h : bucketNullOrStr b) :
    bucketNullOrStr (dictSet b k (JValue.str s)) := by
  intro k2 v hv
  rw [dictGet_dictSet] at hv
  split at hv
  · exact Or.inr ⟨s, (Option.some_inj.mp hv).symm⟩
  · exact h k2 v hv

theorem bucketNullOrStr_copyFields (fields : List (String × JValue)) (b : List (String × JValue))
    (h : bucketNullOrStr b) :
    bucketNullOrStr (copyFields b fields) := by
  induction fields generalizing b with
  | nil => exact h
  | cons p rest ih =>
    rw [copyFields_cons]
    exact ih _ (bucketNullOrStr_dictSet _ _ _ h)

theorem bucketNullOrStr_fromkeysNull (ks : List String) : bucketNullOrStr (fromkeysNull ks) := by
  intro k v hv
  left
  induction ks with
  | nil => cases hv
  | cons a rest ih =>
    simp only [fromkeysNull, List.map, dictGet] at hv
    split at hv
    · exact (Option.some_inj.mp hv).symm
    · exact ih (by simpa [fromkeysNull] using hv)

/-! ## C1 / C9: the jsonload retry loop -/

theorem string_length_ne_zero (b : String) (hb : b ≠ "") : ¬ b.length = 0 := by
  intro h
  apply hb
  cases b with
  | mk data =>
    simp [String.length] at h
    simp [h]

/-- C1: for a transport that raises a transient error on the first N
attempts and then returns a non-empty JSON body, `jsonload` returns the
parsed value iff N < 3; for N ≥ 3 the loop stops after 3 attempts total
and parsing the still-empty body raises a parse failure; and exactly
min(N,3) one-unit sleeps elapse (the attempt count is min(N+1,3)). -/
theorem jsonload_retry_bound (N : Nat) (b : String) (v : JValue)
    (loads : String → Option JValue) (t : Nat → TransportResult)
    (ht : ∀ i, t i = if i < N then TransportResult.raise else TransportResult.body b)
    (hb : b ≠ "") (hv : loads b = some v) (he : loads "" = none) :
    jsonload loads t = ((if N < 3 then some v else none), min N 3, min (N + 1) 3) := by
  have hblen : ¬ b.length = 0 := string_length_ne_zero b hb
  rcases N with _ | (_ | (_ | n))
  · have h0 : t 0 = TransportResult.body b := by rw [ht 0]; simp
    simp [jsonload, jsonloadLoop, h0, hblen, hv]
  · have h0 : t 0 = TransportResult.raise := by rw [ht 0]; simp
    have h1 : t 1 = TransportResult.body b := by rw [ht 1]; simp
    simp [jsonload, jsonloadLoop, h0, h1, hblen, hv]
  · have h0 : t 0 = TransportResult.raise := by rw [ht 0]; simp
    have h1 : t 1 = TransportResult.raise := by rw [ht 1]; simp
    have h2 : t 2 = TransportResult.body b := by rw [ht 2]; simp
    simp [jsonload, jsonloadLoop, h0, h1, h2, hblen, hv]
  · have h0 : t 0 = TransportResult.raise := by
      rw [ht 0]; have : 0 < n + 3 := by omega
      simp [this]
    have h1 : t 1 = TransportResult.raise := by
      rw [ht 1]; have : 1 < n + 3 := by omega
      simp [this]
    have h2 : t 2 = TransportResult.raise := by
      rw [ht 2]; have : 2 < n + 3 := by omega
      simp [this]
    have hn3 : ¬ (n + 3 < 3) := by omega
    simp [jsonload, jsonloadLoop, h0, h1, h2, he, hn3]

/-- Witness for C1 at N = 1: one transient failure, then the body
`"[]"`; the call parses it after one sleep and two attempts. -/
theorem jsonload_retry_bound_witness :
    jsonload (fun s => if s = "[]" then some (JValue.arr []) else none)
        (fun i => if i < 1 then TransportResult.raise else TransportResult.body "[]")
      = (some (JValue.arr []), 1, 2) := by
  have h := jsonload_retry_bound 1 "[]" (JValue.arr [])
      (fun s => if s = "[]" then some (JValue.arr []) else none)
      (fun i => if i < 1 then TransportResult.raise else TransportResult.body "[]")
      (fun i => rfl) (by decide) (by simp) (by simp)
  simpa using h

/-- C9: an attempt is consumed exactly when the previous attempts raised
or returned an empty body; the first non-empty body ends the loop at
attempt k+1 (k < 3) with no further attempts, parsing is applied to that
body (raising if it is not valid JSON), and one sleep elapsed per raising
attempt only — empty-body retries add no delay. -/
theorem jsonload_attempt_semantics (k : Nat) (b : String)
    (loads : String → Option JValue) (t : Nat → TransportResult)
    (hk : k < 3)
    (hprev : ∀ i, i < k → t i = TransportResult.raise ∨ t i = TransportResult.body "")
    (htk : t k = TransportResult.body b) (hb : b ≠ "") (hbad : loads b = none) :
    jsonload loads t = (none, countRaises t k, k + 1) := by
  have hblen : ¬ b.length = 0 := string_length_ne_zero b hb
  interval_cases k
  · simp [jsonload, jsonloadLoop, htk, hblen, hbad, countRaises]
  · rcases hprev 0 (by omega) with h0 | h0 <;>
      simp [jsonload, jsonloadLoop, h0, htk, hblen, hbad, countRaises, List.range_succ]
  · rcases hprev 0 (by omega) with h0 | h0 <;> rcases hprev 1 (by omega) with h1 | h1 <;>
      simp [jsonload, jsonloadLoop, h0, h1, htk, hblen, hbad, countRaises, List.range_succ]

/-- Witness for C9 at k = 1: an empty body (no exception) on attempt 0,
then a non-empty invalid body: parse failure after two attempts and zero
sleeps. -/
theorem jsonload_attempt_semantics_witness :
    jsonload (fun _ => none)
        (fun i => if i = 0 then TransportResult.body "" else TransportResult.body "oops")
      = (none, 0, 2) := by
  have h := jsonload_attempt_semantics 1 "oops" (fun _ => none)
      (fun i => if i = 0 then TransportResult.body "" else TransportResult.body "oops")
      (by omega) (by intro i hi; interval_cases i; exact Or.inr rfl)
      rfl (by decide) rfl
  have hc : countRaises (fun i => if i = 0 then TransportResult.body "" else TransportResult.body "oops") 1 = 0 := rfl
  rw [hc] at h
  exact h

/-! ## C4: inventory classification -/

/-- C4: the inventory partition is total and disjoint over assigned
devices: a device with non-null networkId is in `appliances` iff the first
two characters of its model are one of MX/Z1/Z3/vM (`isApplianceModel`)
and in `devices` iff not; a device with null networkId is in neither. -/
theorem classification_total_disjoint (inventory : List Device) (d : Device) (hd : d ∈ inventory) :
    (d.networkId ≠ none →
      ((d ∈ appliances inventory ↔ isApplianceModel d.model = true)
        ∧ (d ∈ devices inventory ↔ isApplianceModel d.model = false)))
    ∧ (d.networkId = none → d ∉ appliances inventory ∧ d ∉ devices inventory) := by
  constructor
  · intro hnn
    have hsome : d.networkId.isSome = true := Option.isSome_iff_ne_none.mpr hnn
    have happl : d ∈ appliances inventory ↔ isApplianceModel d.model = true := by
      simp [appliances, List.mem_filter, hd, hsome]
    have hcont : (appliances inventory).contains d = true ↔ d ∈ appliances inventory := by
      simp [List.contains]
    constructor
    · exact happl
    · constructor
      · intro hdev
        by_contra hca
        rw [Bool.not_eq_false] at hca
        have hmem : (appliances inventory).contains d = true := hcont.mpr (happl.mpr hca)
        rw [devices, List.mem_filter, hmem] at hdev
        simp at hdev
      · intro hca
        have hnotmem : d ∉ appliances inventory := by
          intro hmem
          have := happl.mp hmem
          rw [this] at hca
          cases hca
        have hcf : (appliances inventory).contains d = false := by
          rcases hcv : (appliances inventory).contains d with _ | _
          · rfl
          · exact absurd (hcont.mp hcv) hnotmem
        rw [devices, List.mem_filter]
        simp only [hd, hsome, hcf, true_and, Bool.and_true, Bool.not_false]
  · intro hnone
    have hsome : d.networkId.isSome = false := by simp [hnone]
    constructor
    · simp [appliances, List.mem_filter, hsome]
    · simp [devices, List.mem_filter, hsome]

/-- Witness for C4 on a one-element inventory holding an assigned MX64. -/
theorem classification_total_disjoint_witness :
    Device.mk "Q2XX-0001" "aa:bb" "MX64" (some "N1") ∈ [Device.mk "Q2XX-0001" "aa:bb" "MX64" (some "N1")]
    ∧ (((Device.mk "Q2XX-0001" "aa:bb" "MX64" (some "N1")).networkId ≠ none →
        ((Device.mk "Q2XX-0001" "aa:bb" "MX64" (some "N1") ∈ appliances [Device.mk "Q2XX-0001" "aa:bb" "MX64" (some "N1")]
            ↔ isApplianceModel (Device.mk "Q2XX-0001" "aa:bb" "MX64" (some "N1")).model = true)
          ∧ (Device.mk "Q2XX-0001" "aa:bb" "MX64" (some "N1") ∈ devices [Device.mk "Q2XX-0001" "aa:bb" "MX64" (some "N1")]
            ↔ isApplianceModel (Device.mk "Q2XX-0001" "aa:bb" "MX64" (some "N1")).model = false)))
      ∧ ((Device.mk "Q2XX-0001" "aa:bb" "MX64" (some "N1")).networkId = none →
          Device.mk "Q2XX-0001" "aa:bb" "MX64" (some "N1") ∉ appliances [Device.mk "Q2XX-0001" "aa:bb" "MX64" (some "N1")]
          ∧ Device.mk "Q2XX-0001" "aa:bb" "MX64" (some "N1") ∉ devices [Device.mk "Q2XX-0001" "aa:bb" "MX64" (some "N1")])) :=
  ⟨by decide, classification_total_disjoint _ _ (by decide)⟩

/-! ## C7: get_network lookup failure behaviour -/

theorem matchingNetworks_total (network_id : String) (networks : List (List (String × JValue)))
    (hid : ∀ n ∈ networks, (dictGet n "id").isSome = true) :
    ∃ ms, matchingNetworks network_id networks = some ms := by
  induction networks with
  | nil => exact ⟨[], rfl⟩
  | cons m rest ih =>
    obtain ⟨v, hv⟩ := Option.isSome_iff_exists.mp (hid m (by simp))
    obtain ⟨ms, hms⟩ := ih (fun n hn => hid n (by simp [hn]))
    exact ⟨if isStrEq v network_id then m :: ms else ms, by simp [matchingNetworks, hv, hms]⟩

theorem matchingNetworks_no_match (network_id : String) (networks : List (List (String × JValue)))
    (hid : ∀ n ∈ networks, (dictGet n "id").isSome = true)
    (hno : ∀ n ∈ networks, ∀ v, dictGet n "id" = some v → isStrEq v network_id = false) :
    matchingNetworks network_id networks = some [] := by
  induction networks with
  | nil => rfl
  | cons m rest ih =>
    obtain ⟨v, hv⟩ := Option.isSome_iff_exists.mp (hid m (by simp))
    have hrest := ih (fun n hn => hid n (by simp [hn])) (fun n hn => hno n (by simp [hn]))
    simp [matchingNetworks, hv, hrest, hno m (by simp) v hv]

theorem matchingNetworks_find (network_id : String) (networks : List (List (String × JValue)))
    (hid : ∀ n ∈ networks, (dictGet n "id").isSome = true) (n : List (String × JValue))
    (hfind : networks.find? (fun m =>
        match dictGet m "id" with
        | some v => isStrEq v network_id
        | none => false) = some n) :
    ∃ ms, matchingNetworks network_id networks = some (n :: ms) := by
  induction networks with
  | nil => cases hfind
  | cons m rest ih =>
    obtain ⟨v, hv⟩ := Option.isSome_iff_exists.mp (hid m (by simp))
    rcases hmatch : isStrEq v network_id with _ | _
    · rw [List.find?_cons] at hfind
      rw [show (match dictGet m "id" with
            | some v => isStrEq v network_id
            | none => false) = false by rw [hv]; exact hmatch] at hfind
      obtain ⟨ms, hms⟩ := ih (fun q hq => hid q (by simp [hq])) hfind
      exact ⟨ms, by simp [matchingNetworks, hv, hms, hmatch]⟩
    · rw [List.find?_cons] at hfind
      rw [show (match dictGet m "id" with
            | some v => isStrEq v network_id
            | none => false) = true by rw [hv]; exact hmatch] at hfind
      obtain ⟨ms, hms⟩ := matchingNetworks_total network_id rest (fun q hq => hid q (by simp [hq]))
      refine ⟨ms, ?_⟩
      simp only [Option.some_inj] at hfind
      subst hfind
      simp [matchingNetworks, hv, hms, hmatch]

/-- C7 counterexample: when a device's network id matches two network
records, `get_network` does not surface any lookup failure — it silently
returns the first matching record. -/
theorem get_network_multiple_matches_counterexample :
    get_network "N1" [[("id", JValue.str "N1"), ("name", JValue.str "A")],
                      [("id", JValue.str "N1"), ("name", JValue.str "B")]]
      = some [("id", JValue.str "N1"), ("name", JValue.str "A")]
    ∧ (get_network "N1" [[("id", JValue.str "N1"), ("name", JValue.str "A")],
                         [("id", JValue.str "N1"), ("name", JValue.str "B")]]).isSome = true :=
  ⟨rfl, rfl⟩

/-- C7 amended: for network records all carrying an id key, zero matches
surface an uncaught index failure (`none`) that propagates and aborts the
run with no local handling; but multiple matches do not fail: the first
matching record is returned silently. -/
theorem get_network_amended (network_id : String) (networks : List (List (String × JValue)))
    (hid : ∀ n ∈ networks, (dictGet n "id").isSome = true) :
    ((∀ n ∈ networks, ∀ v, dictGet n "id" = some v → isStrEq v network_id = false) →
        get_network network_id networks = none)
    ∧ (∀ n, networks.find? (fun m =>
          match dictGet m "id" with
          | some v => isStrEq v network_id
          | none => false) = some n →
        get_network network_id networks = some n) := by
  constructor
  · intro hno
    rw [get_network, matchingNetworks_no_match network_id networks hid hno]
    rfl
  · intro n hfind
    obtain ⟨ms, hms⟩ := matchingNetworks_find network_id networks hid n hfind
    rw [get_network, hms]
    rfl

/-- Witness for the amended C7: a one-element network list with a
non-matching id gives the aborting `none`. -/
theorem get_network_amended_witness :
    get_network "N2" [[("id", JValue.str "N1")]] = none :=
  (get_network_amended "N2" [[("id", JValue.str "N1")]]
      (by intro n hn; simp at hn; subst hn; rfl)).1
    (by
      intro n hn v hv
      simp at hn
      rw [hn] at hv
      have : v = JValue.str "N1" := by
        have := hv
        simp [dictGet] at this
        exact this.symm
      rw [this]
      rfl)

/-! ## C8 / C10: uplink dispatch -/

/-- C8: an uplink entry whose interface label is not exactly WAN 1, WAN 2
or Cellular is silently dropped: the dispatch leaves every bucket of
`uplinks_info` unchanged and raises no error. -/
theorem unknown_interface_dropped (info : UplinksInfo) (fields : List (String × JValue)) (v : JValue)
    (hv : dictGet fields "interface" = some v)
    (h1 : isStrEq v "WAN 1" = false) (h2 : isStrEq v "WAN 2" = false)
    (h3 : isStrEq v "Cellular" = false) :
    applyUplink info (JValue.obj fields) = some info := by
  simp [applyUplink, hv, h1, h2, h3]

/-- Witness for C8 with the unknown label `WAN 3`. -/
theorem unknown_interface_dropped_witness :
    applyUplink uplinks_info_init (JValue.obj [("interface", JValue.str "WAN 3")])
      = some uplinks_info_init :=
  unknown_interface_dropped uplinks_info_init [("interface", JValue.str "WAN 3")]
    (JValue.str "WAN 3") rfl rfl rfl rfl

/-! ## Dispatch-loop invariants -/

theorem applyUplink_spec (info : UplinksInfo) (fields : List (String × JValue)) (v : JValue)
    (hv : dictGet fields "interface" = some v) :
    ∃ info1, applyUplink info (JValue.obj fields) = some info1
      ∧ (interfaceLabelIs (JValue.obj fields) "WAN 1" = false → info1.wan1 = info.wan1)
      ∧ (interfaceLabelIs (JValue.obj fields) "WAN 2" = false → info1.wan2 = info.wan2)
      ∧ (interfaceLabelIs (JValue.obj fields) "Cellular" = false → info1.cellular = info.cellular)
      ∧ (∀ k, (dictGet info.wan1 k).isSome = true → (dictGet info1.wan1 k).isSome = true)
      ∧ (∀ k, (dictGet info.wan2 k).isSome = true → (dictGet info1.wan2 k).isSome = true)
      ∧ (∀ k, (dictGet info.cellular k).isSome = true → (dictGet info1.cellular k).isSome = true)
      ∧ (bucketNullOrStr info.wan1 → bucketNullOrStr info1.wan1)
      ∧ (bucketNullOrStr info.wan2 → bucketNullOrStr info1.wan2)
      ∧ (bucketNullOrStr info.cellular → bucketNullOrStr info1.cellular) := by
  rcases hb1 : isStrEq v "WAN 1" with _ | _
  · rcases hb2 : isStrEq v "WAN 2" with _ | _
    · rcases hb3 : isStrEq v "Cellular" with _ | _
      · refine ⟨info, ?_, fun _ => rfl, fun _ => rfl, fun _ => rfl,
          fun _ hk => hk, fun _ hk => hk, fun _ hk => hk, fun h => h, fun h => h, fun h => h⟩
        simp [applyUplink, hv, hb1, hb2, hb3]
      · refine ⟨{ info with cellular := copyFields info.cellular fields }, ?_, ?_, ?_, ?_,
          ?_, ?_, ?_, ?_, ?_, ?_⟩
        · simp [applyUplink, hv, hb1, hb2, hb3]
        · intro _; rfl
        · intro _; rfl
        · intro hfalse
          simp [interfaceLabelIs, hv, hb3] at hfalse
        · intro k hk; exact hk
        · intro k hk; exact hk
        · intro k hk; exact dictGet_copyFields_isSome fields _ k hk
        · intro h; exact h
        · intro h; exact h
        · intro h; exact bucketNullOrStr_copyFields fields _ h
    · refine ⟨{ info with wan2 := copyFields info.wan2 fields }, ?_, ?_, ?_, ?_,
        ?_, ?_, ?_, ?_, ?_, ?_⟩
      · simp [applyUplink, hv, hb1, hb2]
      · intro _; rfl
      · intro hfalse
        simp [interfaceLabelIs, hv, hb2] at hfalse
      · intro _; rfl
      · intro k hk; exact hk
      · intro k hk; exact dictGet_copyFields_isSome fields _ k hk
      · intro k hk; exact hk
      · intro h; exact h
      · intro h; exact bucketNullOrStr_copyFields fields _ h
      · intro h; exact h
  · refine ⟨{ info with wan1 := copyFields info.wan1 fields }, ?_, ?_, ?_, ?_,
      ?_, ?_, ?_, ?_, ?_, ?_⟩
    · simp [applyUplink, hv, hb1]
    · intro hfalse
      simp [interfaceLabelIs, hv, hb1] at hfalse
    · intro _; rfl
    · intro _; rfl
    · intro k hk; exact dictGet_copyFields_isSome fields _ k hk
    · intro k hk; exact hk
    · intro k hk; exact hk
    · intro h; exact bucketNullOrStr_copyFields fields _ h
    · intro h; exact h
    · intro h; exact h

theorem uplinks_dispatch_spec (us : List JValue) : ∀ info : UplinksInfo,
    (∀ u ∈ us, goodUplinkEntry u = true) →
    ∃ info2, uplinks_dispatch info us = some info2
      ∧ ((∀ u ∈ us, interfaceLabelIs u "WAN 1" = false) → info2.wan1 = info.wan1)
      ∧ ((∀ u ∈ us, interfaceLabelIs u "WAN 2" = false) → info2.wan2 = info.wan2)
      ∧ ((∀ u ∈ us, interfaceLabelIs u "Cellular" = false) → info2.cellular = info.cellular)
      ∧ (∀ k, (dictGet info.wan1 k).isSome = true → (dictGet info2.wan1 k).isSome = true)
      ∧ (∀ k, (dictGet info.wan2 k).isSome = true → (dictGet info2.wan2 k).isSome = true)
      ∧ (∀ k, (dictGet info.cellular k).isSome = true → (dictGet info2.cellular k).isSome = true)
      ∧ (bucketNullOrStr info.wan1 → bucketNullOrStr info2.wan1)
      ∧ (bucketNullOrStr info.wan2 → bucketNullOrStr info2.wan2)
      ∧ (bucketNullOrStr info.cellular → bucketNullOrStr info2.cellular) := by
  induction us with
  | nil =>
    intro info _
    exact ⟨info, rfl, fun _ => rfl, fun _ => rfl, fun _ => rfl,
      fun _ hk => hk, fun _ hk => hk, fun _ hk => hk, fun h => h, fun h => h, fun h => h⟩
  | cons u rest ih =>
    intro info hgood
    have hu : goodUplinkEntry u = true := hgood u (by simp)
    cases u with
    | obj fields =>
      simp only [goodUplinkEntry] at hu
      obtain ⟨v, hv⟩ := Option.isSome_iff_exists.mp hu
      obtain ⟨info1, happ, hA1, hA2, hA3, hB1, hB2, hB3, hC1, hC2, hC3⟩ :=
        applyUplink_spec info fields v hv
      obtain ⟨info2, hdisp, hD1, hD2, hD3, hE1, hE2, hE3, hF1, hF2, hF3⟩ :=
        ih info1 (fun q hq => hgood q (by simp [hq]))
      refine ⟨info2, ?_, ?_, ?_, ?_, ?_, ?_, ?_, ?_, ?_, ?_⟩
      · simp [uplinks_dispatch, happ, hdisp]
      · intro hall
        rw [hD1 (fun q hq => hall q (by simp [hq])), hA1 (hall _ (by simp))]
      · intro hall
        rw [hD2 (fun q hq => hall q (by simp [hq])), hA2 (hall _ (by simp))]
      · intro hall
        rw [hD3 (fun q hq => hall q (by simp [hq])), hA3 (hall _ (by simp))]
      · intro k hk; exact hE1 k (hB1 k hk)
      · intro k hk; exact hE2 k (hB2 k hk)
      · intro k hk; exact hE3 k (hB3 k hk)
      · intro h; exact hF1 (hC1 h)
      · intro h; exact hF2 (hC2 h)
      · intro h; exact hF3 (hC3 h)
    | null => simp [goodUplinkEntry] at hu
    | bool b => simp [goodUplinkEntry] at hu
    | num n => simp [goodUplinkEntry] at hu
    | str s => simp [goodUplinkEntry] at hu
    | arr xs => simp [goodUplinkEntry] at hu

/-! ## Row-construction lemmas -/

theorem readWan_eq (b : List (String × JValue)) (s i g p d u : JValue)
    (h1 : dictGet b "status" = some s) (h2 : dictGet b "ip" = some i)
    (h3 : dictGet b "gateway" = some g) (h4 : dictGet b "publicIp" = some p)
    (h5 : dictGet b "dns" = some d) (h6 : dictGet b "usingStaticIp" = some u) :
    readWan b = some ⟨s, i, g, p, d, u⟩ := by
  simp [readWan, h1, h2, h3, h4, h5, h6]

theorem readCellular_eq (b : List (String × JValue)) (s i pr p m ct : JValue)
    (h1 : dictGet b "status" = some s) (h2 : dictGet b "ip" = some i)
    (h3 : dictGet b "provider" = some pr) (h4 : dictGet b "publicIp" = some p)
    (h5 : dictGet b "model" = some m) (h6 : dictGet b "connectionType" = some ct) :
    readCellular b = some ⟨s, i, pr, p, m, ct⟩ := by
  simp [readCellular, h1, h2, h3, h4, h5, h6]

theorem readOther_eq (b : List (String × JValue)) (s i g p d vl u : JValue)
    (h1 : dictGet b "status" = some s) (h2 : dictGet b "ip" = some i)
    (h3 : dictGet b "gateway" = some g) (h4 : dictGet b "publicIp" = some p)
    (h5 : dictGet b "dns" = some d) (h6 : dictGet b "vlan" = some vl)
    (h7 : dictGet b "usingStaticIp" = some u) :
    readOther b = some ⟨s, i, g, p, d, vl, u⟩ := by
  simp [readOther, h1, h2, h3, h4, h5, h6, h7]

theorem applianceBase_lookups (tz network_name device_name : JValue) (appl : Device)
    (firmware lat lng : JValue) (w1 w2 : WanFields) (c : CellularFields) (row : Row)
    (hrow : row = applianceBase tz network_name device_name appl firmware lat lng w1 w2 c) :
    dictGet row "TimeZone" = some (JValue.str (pyStr tz))
    ∧ dictGet row "WAN1 Status" = some w1.status
    ∧ dictGet row "WAN1 IP" = some w1.ip
    ∧ dictGet row "WAN1 Gateway" = some w1.gateway
    ∧ dictGet row "WAN1 Public IP" = some w1.publicIp
    ∧ dictGet row "WAN1 DNS" = some w1.dns
    ∧ dictGet row "WAN1 Static" = some w1.usingStaticIp
    ∧ dictGet row "WAN2 Status" = some w2.status
    ∧ dictGet row "WAN2 IP" = some w2.ip
    ∧ dictGet row "WAN2 Gateway" = some w2.gateway
    ∧ dictGet row "WAN2 Public IP" = some w2.publicIp
    ∧ dictGet row "WAN2 DNS" = some w2.dns
    ∧ dictGet row "WAN2 Static" = some w2.usingStaticIp
    ∧ dictGet row "Cellular Status" = some c.status
    ∧ dictGet row "Cellular IP" = some c.ip
    ∧ dictGet row "Cellular Provider" = some c.provider
    ∧ dictGet row "Cellular Public IP" = some c.publicIp
    ∧ dictGet row "Cellular Model" = some c.model
    ∧ dictGet row "Cellular Connection" = some c.connectionType
    ∧ dictGet row "Performance" = none := by
  subst hrow
  exact ⟨rfl, rfl, rfl, rfl, rfl, rfl, rfl, rfl, rfl, rfl, rfl, rfl, rfl, rfl, rfl, rfl,
    rfl, rfl, rfl, rfl⟩

theorem applianceIteration_spec (network device_info : Row) (appl : Device)
    (perfFetch : Option JValue) (xs : List JValue)
    (hn : goodNetwork network = true) (hd : goodDeviceInfo device_info = true)
    (hx : ∀ u ∈ xs, goodUplinkEntry u = true) :
    ∃ row, applianceIteration network device_info appl perfFetch (JValue.arr xs) = some row
      ∧ (∀ label, (label = "WAN 1" ∨ label = "WAN 2" ∨ label = "Cellular") →
          (∀ u ∈ xs, interfaceLabelIs u label = false) →
          ∀ col ∈ interfaceColumns label, dictGet row col = some JValue.null)
      ∧ (perfscoreVal perfFetch = none → dictGet row "Performance" = none)
      ∧ (∀ p, perfscoreVal perfFetch = some p → dictGet row "Performance" = some p)
      ∧ (∀ label, (label = "WAN 1" ∨ label = "WAN 2" ∨ label = "Cellular") →
          ∀ col ∈ interfaceColumns label,
            ∃ v, dictGet row col = some v ∧ (v = JValue.null ∨ ∃ s, v = JValue.str s))
      ∧ (∃ s, dictGet row "TimeZone" = some (JValue.str s))
      ∧ dictGet row "Serial" = some (JValue.str appl.serial)
      ∧ dictGet row "MAC" = some (JValue.str appl.mac)
      ∧ dictGet row "Model" = some (JValue.str appl.model)
      ∧ (∃ s, dictGet row "geolocation" = some (JValue.str s)) := by
  simp only [goodNetwork, Bool.and_eq_true] at hn
  obtain ⟨nn, hnn⟩ := Option.isSome_iff_exists.mp hn.1
  obtain ⟨tz, htz⟩ := Option.isSome_iff_exists.mp hn.2
  simp only [goodDeviceInfo, Bool.and_eq_true] at hd
  obtain ⟨⟨⟨hdn0, hfw0⟩, hlat0⟩, hlng0⟩ := hd
  obtain ⟨dn, hdn⟩ := Option.isSome_iff_exists.mp hdn0
  obtain ⟨fw, hfw⟩ := Option.isSome_iff_exists.mp hfw0
  obtain ⟨lat, hlat⟩ := Option.isSome_iff_exists.mp hlat0
  obtain ⟨lng, hlng⟩ := Option.isSome_iff_exists.mp hlng0
  obtain ⟨info2, hdisp, hun1, hun2, hun3, hs1, hs2, hs3, hns1, hns2, hns3⟩ :=
    uplinks_dispatch_spec xs uplinks_info_init hx
  obtain ⟨a1, ha1⟩ := Option.isSome_iff_exists.mp (hs1 "status" rfl)
  obtain ⟨a2, ha2⟩ := Option.isSome_iff_exists.mp (hs1 "ip" rfl)
  obtain ⟨a3, ha3⟩ := Option.isSome_iff_exists.mp (hs1 "gateway" rfl)
  obtain ⟨a4, ha4⟩ := Option.isSome_iff_exists.mp (hs1 "publicIp" rfl)
  obtain ⟨a5, ha5⟩ := Option.isSome_iff_exists.mp (hs1 "dns" rfl)
  obtain ⟨a6, ha6⟩ := Option.isSome_iff_exists.mp (hs1 "usingStaticIp" rfl)
  obtain ⟨b1, hb1⟩ := Option.isSome_iff_exists.mp (hs2 "status" rfl)
  obtain ⟨b2, hb2⟩ := Option.isSome_iff_exists.mp (hs2 "ip" rfl)
  obtain ⟨b3, hb3⟩ := Option.isSome_iff_exists.mp (hs2 "gateway" rfl)
  obtain ⟨b4, hb4⟩ := Option.isSome_iff_exists.mp (hs2 "publicIp" rfl)
  obtain ⟨b5, hb5⟩ := Option.isSome_iff_exists.mp (hs2 "dns" rfl)
  obtain ⟨b6, hb6⟩ := Option.isSome_iff_exists.mp (hs2 "usingStaticIp" rfl)
  obtain ⟨c1, hc1⟩ := Option.isSome_iff_exists.mp (hs3 "status" rfl)
  obtain ⟨c2, hc2⟩ := Option.isSome_iff_exists.mp (hs3 "ip" rfl)
  obtain ⟨c3, hc3⟩ := Option.isSome_iff_exists.mp (hs3 "provider" rfl)
  obtain ⟨c4, hc4⟩ := Option.isSome_iff_exists.mp (hs3 "publicIp" rfl)
  obtain ⟨c5, hc5⟩ := Option.isSome_iff_exists.mp (hs3 "model" rfl)
  obtain ⟨c6, hc6⟩ := Option.isSome_iff_exists.mp (hs3 "connectionType" rfl)
  have hread1 : readWan info2.wan1 = some ⟨a1, a2, a3, a4, a5, a6⟩ :=
    readWan_eq _ _ _ _ _ _ _ ha1 ha2 ha3 ha4 ha5 ha6
  have hread2 : readWan info2.wan2 = some ⟨b1, b2, b3, b4, b5, b6⟩ :=
    readWan_eq _ _ _ _ _ _ _ hb1 hb2 hb3 hb4 hb5 hb6
  have hread3 : readCellular info2.cellular = some ⟨c1, c2, c3, c4, c5, c6⟩ :=
    readCellular_eq _ _ _ _ _ _ _ hc1 hc2 hc3 hc4 hc5 hc6
  have hiter : applianceIteration network device_info appl perfFetch (JValue.arr xs)
      = buildApplianceRow tz nn dn appl fw lat lng info2 (perfscoreVal perfFetch) := by
    simp [applianceIteration, hnn, hdn, htz, hfw, hlat, hlng, hdisp]
  obtain ⟨row, hroweq, hskip, hperfget⟩ :
      ∃ row, applianceIteration network device_info appl perfFetch (JValue.arr xs) = some row
        ∧ (∀ col, col ≠ "Performance" →
            dictGet row col = dictGet (applianceBase tz nn dn appl fw lat lng
              ⟨a1, a2, a3, a4, a5, a6⟩ ⟨b1, b2, b3, b4, b5, b6⟩ ⟨c1, c2, c3, c4, c5, c6⟩) col)
        ∧ dictGet row "Performance" = perfscoreVal perfFetch := by
    rcases hperf : perfscoreVal perfFetch with _ | p
    · refine ⟨applianceBase tz nn dn appl fw lat lng
        ⟨a1, a2, a3, a4, a5, a6⟩ ⟨b1, b2, b3, b4, b5, b6⟩ ⟨c1, c2, c3, c4, c5, c6⟩,
        ?_, fun col hc => rfl, ?_⟩
      · rw [hiter]
        simp [buildApplianceRow, hread1, hread2, hread3, hperf]
      · rfl
    · refine ⟨dictSet (applianceBase tz nn dn appl fw lat lng
        ⟨a1, a2, a3, a4, a5, a6⟩ ⟨b1, b2, b3, b4, b5, b6⟩ ⟨c1, c2, c3, c4, c5, c6⟩)
          "Performance" p, ?_, ?_, ?_⟩
      · rw [hiter]
        simp [buildApplianceRow, hread1, hread2, hread3, hperf]
      · intro col hc
        rw [dictGet_dictSet]
        exact if_neg (fun h => hc h.symm)
      · rw [dictGet_dictSet, if_pos rfl]
  obtain ⟨hTZ, hW1S, hW1IP, hW1GW, hW1PUB, hW1DNS, hW1ST, hW2S, hW2IP, hW2GW, hW2PUB,
      hW2DNS, hW2ST, hCS, hCIP, hCPROV, hCPUB, hCMOD, hCCONN, hPerfBase⟩ :=
    applianceBase_lookups tz nn dn appl fw lat lng
      ⟨a1, a2, a3, a4, a5, a6⟩ ⟨b1, b2, b3, b4, b5, b6⟩ ⟨c1, c2, c3, c4, c5, c6⟩ _ rfl
  refine ⟨row, hroweq, ?_, ?_, ?_, ?_, ?_, ?_, ?_, ?_, ?_⟩
  · intro label hl hall col hcol
    rcases hl with rfl | rfl | rfl
    · have hbw : info2.wan1 = uplinks_info_init.wan1 := hun1 hall
      simp [interfaceColumns] at hcol
      rcases hcol with rfl | rfl | rfl | rfl | rfl | rfl
      · rw [hskip _ (by decide), hW1S]
        show some a1 = some JValue.null
        rw [← ha1, hbw]
        rfl
      · rw [hskip _ (by decide), hW1IP]
        show some a2 = some JValue.null
        rw [← ha2, hbw]
        rfl
      · rw [hskip _ (by decide), hW1GW]
        show some a3 = some JValue.null
        rw [← ha3, hbw]
        rfl
      · rw [hskip _ (by decide), hW1PUB]
        show some a4 = some JValue.null
        rw [← ha4, hbw]
        rfl
      · rw [hskip _ (by decide), hW1DNS]
        show some a5 = some JValue.null
        rw [← ha5, hbw]
        rfl
      · rw [hskip _ (by decide), hW1ST]
        show some a6 = some JValue.null
        rw [← ha6, hbw]
        rfl
    · have hbw : info2.wan2 = uplinks_info_init.wan2 := hun2 hall
      simp [interfaceColumns] at hcol
      rcases hcol with rfl | rfl | rfl | rfl | rfl | rfl
      · rw [hskip _ (by decide), hW2S]
        show some b1 = some JValue.null
        rw [← hb1, hbw]
        rfl
      · rw [hskip _ (by decide), hW2IP]
        show some b2 = some JValue.null
        rw [← hb2, hbw]
        rfl
      · rw [hskip _ (by decide), hW2GW]
        show some b3 = some JValue.null
        rw [← hb3, hbw]
        rfl
      · rw [hskip _ (by decide), hW2PUB]
        show some b4 = some JValue.null
        rw [← hb4, hbw]
        rfl
      · rw [hskip _ (by decide), hW2DNS]
        show some b5 = some JValue.null
        rw [← hb5, hbw]
        rfl
      · rw [hskip _ (by decide), hW2ST]
        show some b6 = some JValue.null
        rw [← hb6, hbw]
        rfl
    · have hbw : info2.cellular = uplinks_info_init.cellular := hun3 hall
      simp [interfaceColumns] at hcol
      rcases hcol with rfl | rfl | rfl | rfl | rfl | rfl
      · rw [hskip _ (by decide), hCS]
        show some c1 = some JValue.null
        rw [← hc1, hbw]
        rfl
      · rw [hskip _ (by decide), hCIP]
        show some c2 = some JValue.null
        rw [← hc2, hbw]
        rfl
      · rw [hskip _ (by decide), hCPROV]
        show some c3 = some JValue.null
        rw [← hc3, hbw]
        rfl
      · rw [hskip _ (by decide), hCPUB]
        show some c4 = some JValue.null
        rw [← hc4, hbw]
        rfl
      · rw [hskip _ (by decide), hCMOD]
        show some c5 = some JValue.null
        rw [← hc5, hbw]
        rfl
      · rw [hskip _ (by decide), hCCONN]
        show some c6 = some JValue.null
        rw [← hc6, hbw]
        rfl
  · intro h
    rw [hperfget, h]
  · intro p hp
    rw [hperfget, hp]
  · intro label hl col hcol
    have hinit1 : bucketNullOrStr uplinks_info_init.wan1 := bucketNullOrStr_fromkeysNull _
    have hinit2 : bucketNullOrStr uplinks_info_init.wan2 := bucketNullOrStr_fromkeysNull _
    have hinit3 : bucketNullOrStr uplinks_info_init.cellular := bucketNullOrStr_fromkeysNull _
    rcases hl with rfl | rfl | rfl
    · simp [interfaceColumns] at hcol
      rcases hcol with rfl | rfl | rfl | rfl | rfl | rfl
      · exact ⟨a1, by rw [hskip _ (by decide), hW1S], hns1 hinit1 "status" a1 ha1⟩
      · exact ⟨a2, by rw [hskip _ (by decide), hW1IP], hns1 hinit1 "ip" a2 ha2⟩
      · exact ⟨a3, by rw [hskip _ (by decide), hW1GW], hns1 hinit1 "gateway" a3 ha3⟩
      · exact ⟨a4, by rw [hskip _ (by decide), hW1PUB], hns1 hinit1 "publicIp" a4 ha4⟩
      · exact ⟨a5, by rw [hskip _ (by decide), hW1DNS], hns1 hinit1 "dns" a5 ha5⟩
      · exact ⟨a6, by rw [hskip _ (by decide), hW1ST], hns1 hinit1 "usingStaticIp" a6 ha6⟩
    · simp [interfaceColumns] at hcol
      rcases hcol with rfl | rfl | rfl | rfl | rfl | rfl
      · exact ⟨b1, by rw [hskip _ (by decide), hW2S], hns2 hinit2 "status" b1 hb1⟩
      · exact ⟨b2, by rw [hskip _ (by decide), hW2IP], hns2 hinit2 "ip" b2 hb2⟩
      · exact ⟨b3, by rw [hskip _ (by decide), hW2GW], hns2 hinit2 "gateway" b3 hb3⟩
      · exact ⟨b4, by rw [hskip _ (by decide), hW2PUB], hns2 hinit2 "publicIp" b4 hb4⟩
      · exact ⟨b5, by rw [hskip _ (by decide), hW2DNS], hns2 hinit2 "dns" b5 hb5⟩
      · exact ⟨b6, by rw [hskip _ (by decide), hW2ST], hns2 hinit2 "usingStaticIp" b6 hb6⟩
    · simp [interfaceColumns] at hcol
      rcases hcol with rfl | rfl | rfl | rfl | rfl | rfl
      · exact ⟨c1, by rw [hskip _ (by decide), hCS], hns3 hinit3 "status" c1 hc1⟩
      · exact ⟨c2, by rw [hskip _ (by decide), hCIP], hns3 hinit3 "ip" c2 hc2⟩
      · exact ⟨c3, by rw [hskip _ (by decide), hCPROV], hns3 hinit3 "provider" c3 hc3⟩
      · exact ⟨c4, by rw [hskip _ (by decide), hCPUB], hns3 hinit3 "publicIp" c4 hc4⟩
      · exact ⟨c5, by rw [hskip _ (by decide), hCMOD], hns3 hinit3 "model" c5 hc5⟩
      · exact ⟨c6, by rw [hskip _ (by decide), hCCONN], hns3 hinit3 "connectionType" c6 hc6⟩
  · exact ⟨pyStr tz, by rw [hskip _ (by decide), hTZ]⟩
  · rw [hskip _ (by decide)]
    rfl
  · rw [hskip _ (by decide)]
    rfl
  · rw [hskip _ (by decide)]
    rfl
  · refine ⟨"https://www.google.com/maps/@" ++ pyStr lat ++ "," ++ pyStr lng ++ ",15z", ?_⟩
    rw [hskip _ (by decide)]
    rfl

/-! ## C3: appliance completeness -/

/-- C3: for appliance devices whose per-device fetches succeed, the
appliances loop writes exactly one row per device regardless of how many
of WAN1/WAN2/Cellular appear in the uplink list; interface blocks never
reported keep all their columns bound to null and render as blank column
values, with every column still present in the report schema. -/
theorem appliance_completeness (inputs : List ApplInput)
    (h : ∀ i ∈ inputs, goodApplInput i = true) :
    ∃ rows, applianceLoop inputs = some rows ∧ rows.length = inputs.length
      ∧ List.Forall₂ (fun i row =>
          (renderRow applianceFieldnames row).length = applianceFieldnames.length
          ∧ ∀ label, (label = "WAN 1" ∨ label = "WAN 2" ∨ label = "Cellular") →
              notReported i label = true →
              ∀ col ∈ interfaceColumns label,
                dictGet row col = some JValue.null ∧ renderField row col = ""
                  ∧ col ∈ applianceFieldnames) inputs rows := by
  induction inputs with
  | nil => exact ⟨[], rfl, rfl, List.Forall₂.nil⟩
  | cons i rest ih =>
    obtain ⟨rows, hrows, hlen, hfa⟩ := ih (fun j hj => h j (by simp [hj]))
    have hi := h i (by simp)
    obtain ⟨network, device_info, dev, perfFetch, uplinksRes⟩ := i
    simp only [goodApplInput, Bool.and_eq_true] at hi
    obtain ⟨⟨hn, hd⟩, hu⟩ := hi
    cases uplinksRes with
    | arr xs =>
      have hx : ∀ u ∈ xs, goodUplinkEntry u = true := by
        intro u huu
        exact List.all_eq_true.mp hu u huu
      obtain ⟨row, hrow, hA, hB, hB2, hE, hF⟩ :=
        applianceIteration_spec network device_info dev perfFetch xs hn hd hx
      refine ⟨row :: rows, ?_, ?_, ?_⟩
      · simp [applianceLoop, hrow, hrows]
      · simp [hlen]
      · refine List.Forall₂.cons ⟨?_, ?_⟩ hfa
        · simp [renderRow]
        · intro label hl hnrep col hcol
          simp only [notReported] at hnrep
          have hall : ∀ u ∈ xs, interfaceLabelIs u label = false := by
            intro u huu
            have := List.all_eq_true.mp hnrep u huu
            simpa using this
          have hnull := hA label hl hall col hcol
          refine ⟨hnull, by simp [renderField, hnull, renderCell], ?_⟩
          rcases hl with rfl | rfl | rfl <;>
            · simp [interfaceColumns] at hcol
              rcases hcol with rfl | rfl | rfl | rfl | rfl | rfl <;> decide
    | null => simp at hu
    | bool b => simp at hu
    | num n => simp at hu
    | str s => simp at hu
    | obj fields => simp at hu

/-- Witness for C3: one appliance with one WAN 1 entry; WAN 2 and Cellular
are never reported. -/
theorem appliance_completeness_witness :
    (∀ i ∈ [ApplInput.mk [("name", JValue.str "HQ"), ("timeZone", JValue.str "UTC")]
        [("serial", JValue.str "Q1"), ("firmware", JValue.str "fw"),
         ("lat", JValue.str "1"), ("lng", JValue.str "2")]
        (Device.mk "Q1" "aa:bb" "MX64" (some "N1")) none
        (JValue.arr [JValue.obj [("interface", JValue.str "WAN 1"),
          ("status", JValue.str "Active"), ("ip", JValue.str "1.2.3.4")]])],
      goodApplInput i = true)
    ∧ (∃ rows, applianceLoop [ApplInput.mk [("name", JValue.str "HQ"), ("timeZone", JValue.str "UTC")]
        [("serial", JValue.str "Q1"), ("firmware", JValue.str "fw"),
         ("lat", JValue.str "1"), ("lng", JValue.str "2")]
        (Device.mk "Q1" "aa:bb" "MX64" (some "N1")) none
        (JValue.arr [JValue.obj [("interface", JValue.str "WAN 1"),
          ("status", JValue.str "Active"), ("ip", JValue.str "1.2.3.4")]])] = some rows
      ∧ rows.length = [ApplInput.mk [("name", JValue.str "HQ"), ("timeZone", JValue.str "UTC")]
        [("serial", JValue.str "Q1"), ("firmware", JValue.str "fw"),
         ("lat", JValue.str "1"), ("lng", JValue.str "2")]
        (Device.mk "Q1" "aa:bb" "MX64" (some "N1")) none
        (JValue.arr [JValue.obj [("interface", JValue.str "WAN 1"),
          ("status", JValue.str "Active"), ("ip", JValue.str "1.2.3.4")]])].length
      ∧ List.Forall₂ (fun i row =>
          (renderRow applianceFieldnames row).length = applianceFieldnames.length
          ∧ ∀ label, (label = "WAN 1" ∨ label = "WAN 2" ∨ label = "Cellular") →
              notReported i label = true →
              ∀ col ∈ interfaceColumns label,
                dictGet row col = some JValue.null ∧ renderField row col = ""
                  ∧ col ∈ applianceFieldnames)
        [ApplInput.mk [("name", JValue.str "HQ"), ("timeZone", JValue.str "UTC")]
          [("serial", JValue.str "Q1"), ("firmware", JValue.str "fw"),
           ("lat", JValue.str "1"), ("lng", JValue.str "2")]
          (Device.mk "Q1" "aa:bb" "MX64" (some "N1")) none
          (JValue.arr [JValue.obj [("interface", JValue.str "WAN 1"),
            ("status", JValue.str "Active"), ("ip", JValue.str "1.2.3.4")]])] rows) :=
  ⟨by intro i hi; simp at hi; subst hi; rfl,
   appliance_completeness _ (by intro i hi; simp at hi; subst hi; rfl)⟩

/-! ## C6: perfscore failure does not abort the row -/

/-- C6: for an appliance whose other fetches succeed, a failing
performance fetch (transport exception / unusable non-dict response /
missing perfScore key) still emits the row, with the Performance key
absent and the column rendered blank. -/
theorem perfscore_failure_row_still_emitted (network device_info : Row) (appl : Device)
    (perfFetch : Option JValue) (xs : List JValue)
    (hn : goodNetwork network = true) (hd : goodDeviceInfo device_info = true)
    (hx : ∀ u ∈ xs, goodUplinkEntry u = true)
    (hfail : perfFetch = none
      ∨ (∃ fields, perfFetch = some (JValue.obj fields) ∧ dictGet fields "perfScore" = none)
      ∨ (∀ fields, perfFetch ≠ some (JValue.obj fields))) :
    ∃ row, applianceIteration network device_info appl perfFetch (JValue.arr xs) = some row
      ∧ dictGet row "Performance" = none ∧ renderField row "Performance" = "" := by
  have hpv : perfscoreVal perfFetch = none := by
    rcases hfail with rfl | ⟨fields, rfl, hpf⟩ | hng
    · rfl
    · simp [perfscoreVal, hpf]
    · cases perfFetch with
      | none => rfl
      | some v =>
        cases v with
        | null => rfl
        | bool b => rfl
        | num n => rfl
        | str s => rfl
        | arr vs => rfl
        | obj fields => exact absurd rfl (hng fields)
  obtain ⟨row, hrow, _, hB, _, _, _⟩ :=
    applianceIteration_spec network device_info appl perfFetch xs hn hd hx
  have hnone := hB hpv
  exact ⟨row, hrow, hnone, by simp [renderField, hnone]⟩

/-- Witness for C6: the performance fetch raised; the row is still there
with Performance blank. -/
theorem perfscore_failure_row_still_emitted_witness :
    ∃ row, applianceIteration [("name", JValue.str "HQ"), ("timeZone", JValue.str "UTC")]
        [("serial", JValue.str "Q1"), ("firmware", JValue.str "fw"),
         ("lat", JValue.str "1"), ("lng", JValue.str "2")]
        (Device.mk "Q1" "aa:bb" "MX64" (some "N1")) none (JValue.arr []) = some row
      ∧ dictGet row "Performance" = none ∧ renderField row "Performance" = "" :=
  perfscore_failure_row_still_emitted _ _ _ _ _ rfl rfl
    (by intro u hu; cases hu) (Or.inl rfl)

/-! ## C5: stringification -/

/-- C5 counterexample: with a numeric perfScore of 10, the emitted row
binds the Performance field to the number 10 itself — the value is not
coerced to a string before emission, refuting "every field value emitted
into either report row is a string". -/
theorem stringification_counterexample :
    ((applianceIteration [("name", JValue.str "HQ"), ("timeZone", JValue.str "UTC")]
        [("serial", JValue.str "Q1"), ("firmware", JValue.str "fw"),
         ("lat", JValue.str "1"), ("lng", JValue.str "2")]
        (Device.mk "Q1" "aa:bb" "MX64" (some "N1"))
        (some (JValue.obj [("perfScore", JValue.num 10)]))
        (JValue.arr [])).bind (fun row => dictGet row "Performance"))
      = some (JValue.num 10)
    ∧ isStrCell (JValue.num 10) = false :=
  ⟨rfl, rfl⟩

theorem buildOtherRow_lookups (tz network_name device_name : JValue) (dev : Device)
    (ui : List (String × JValue)) (o : OtherFields) (row : Row)
    (hread : readOther ui = some o)
    (hrow : buildOtherRow tz network_name device_name dev ui = some row) :
    dictGet row "TimeZone" = some (JValue.str (pyStr tz))
    ∧ dictGet row "Serial" = some (JValue.str dev.serial)
    ∧ dictGet row "MAC" = some (JValue.str dev.mac)
    ∧ dictGet row "Model" = some (JValue.str dev.model)
    ∧ dictGet row "Status" = some o.status
    ∧ dictGet row "IP" = some o.ip
    ∧ dictGet row "Gateway" = some o.gateway
    ∧ dictGet row "Public IP" = some o.publicIp
    ∧ dictGet row "DNS" = some o.dns
    ∧ dictGet row "VLAN" = some o.vlan
    ∧ dictGet row "Static" = some o.usingStaticIp := by
  rw [buildOtherRow, hread] at hrow
  simp only [Option.some_bind, Option.some_inj] at hrow
  subst hrow
  exact ⟨rfl, rfl, rfl, rfl, rfl, rfl, rfl, rfl, rfl, rfl, rfl⟩

theorem otherIteration_spec (network device_info : Row) (dev : Device)
    (fields : List (String × JValue)) (l : List JValue)
    (hn : (dictGet network "name").isSome = true)
    (hdn : (deviceNameOf device_info).isSome = true)
    (htz : (dictGet network "timeZone").isSome = true) :
    ∃ row, otherIteration network device_info dev (JValue.arr (JValue.obj fields :: l))
        = IterResult.row row
      ∧ (∃ s, dictGet row "TimeZone" = some (JValue.str s))
      ∧ dictGet row "Serial" = some (JValue.str dev.serial)
      ∧ dictGet row "MAC" = some (JValue.str dev.mac)
      ∧ dictGet row "Model" = some (JValue.str dev.model)
      ∧ (∀ col ∈ ["Status", "IP", "Gateway", "Public IP", "DNS", "VLAN", "Static"],
          ∃ v, dictGet row col = some v ∧ (v = JValue.null ∨ ∃ s, v = JValue.str s)) := by
  obtain ⟨nn, hnn⟩ := Option.isSome_iff_exists.mp hn
  obtain ⟨dn, hdn2⟩ := Option.isSome_iff_exists.mp hdn
  obtain ⟨tz, htz2⟩ := Option.isSome_iff_exists.mp htz
  obtain ⟨o1, ho1⟩ := Option.isSome_iff_exists.mp
    (dictGet_copyFields_isSome fields otherInitBucket "status" rfl)
  obtain ⟨o2, ho2⟩ := Option.isSome_iff_exists.mp
    (dictGet_copyFields_isSome fields otherInitBucket "ip" rfl)
  obtain ⟨o3, ho3⟩ := Option.isSome_iff_exists.mp
    (dictGet_copyFields_isSome fields otherInitBucket "gateway" rfl)
  obtain ⟨o4, ho4⟩ := Option.isSome_iff_exists.mp
    (dictGet_copyFields_isSome fields otherInitBucket "publicIp" rfl)
  obtain ⟨o5, ho5⟩ := Option.isSome_iff_exists.mp
    (dictGet_copyFields_isSome fields otherInitBucket "dns" rfl)
  obtain ⟨o6, ho6⟩ := Option.isSome_iff_exists.mp
    (dictGet_copyFields_isSome fields otherInitBucket "vlan" rfl)
  obtain ⟨o7, ho7⟩ := Option.isSome_iff_exists.mp
    (dictGet_copyFields_isSome fields otherInitBucket "usingStaticIp" rfl)
  have hread : readOther (copyFields otherInitBucket fields) = some ⟨o1, o2, o3, o4, o5, o6, o7⟩ :=
    readOther_eq _ _ _ _ _ _ _ _ ho1 ho2 ho3 ho4 ho5 ho6 ho7
  have hbns : bucketNullOrStr (copyFields otherInitBucket fields) :=
    bucketNullOrStr_copyFields fields _ (bucketNullOrStr_fromkeysNull _)
  rcases hbuild : buildOtherRow tz nn dn dev (copyFields otherInitBucket fields) with _ | row
  · rw [buildOtherRow, hread] at hbuild
    simp at hbuild
  · obtain ⟨hTZ, hSer, hMAC, hMod, hSt, hIP, hGW, hPub, hDNS, hVLAN, hStat⟩ :=
      buildOtherRow_lookups tz nn dn dev _ _ row hread hbuild
    refine ⟨row, ?_, ⟨pyStr tz, hTZ⟩, hSer, hMAC, hMod, ?_⟩
    · simp [otherIteration, hnn, hdn2, htz2, hbuild]
    · intro col hcol
      simp at hcol
      rcases hcol with rfl | rfl | rfl | rfl | rfl | rfl | rfl
      · exact ⟨o1, hSt, hbns "status" o1 ho1⟩
      · exact ⟨o2, hIP, hbns "ip" o2 ho2⟩
      · exact ⟨o3, hGW, hbns "gateway" o3 ho3⟩
      · exact ⟨o4, hPub, hbns "publicIp" o4 ho4⟩
      · exact ⟨o5, hDNS, hbns "dns" o5 ho5⟩
      · exact ⟨o6, hVLAN, hbns "vlan" o6 ho6⟩
      · exact ⟨o7, hStat, hbns "usingStaticIp" o7 ho7⟩

/-- C5 amended: in both report rows, the TimeZone field (and, for
appliances, the geolocation field) is a `str()`-built string, the Serial,
MAC and Model fields are strings, and every uplink-derived field is null
(rendered blank) or a `str()`-coerced string; `str()` is the identity on
strings, so an IP-shaped string value such as "10.123.096.228" reaches the
report unchanged.  The Performance field, however, is emitted exactly as
the API returned it — a numeric perfScore stays numeric, uncoerced. -/
theorem stringification_amended :
    (∀ (network device_info : Row) (appl : Device) (perfFetch : Option JValue)
        (xs : List JValue),
        goodNetwork network = true → goodDeviceInfo device_info = true →
        (∀ u ∈ xs, goodUplinkEntry u = true) →
        ∃ row, applianceIteration network device_info appl perfFetch (JValue.arr xs) = some row
          ∧ (∃ s, dictGet row "TimeZone" = some (JValue.str s))
          ∧ dictGet row "Serial" = some (JValue.str appl.serial)
          ∧ dictGet row "MAC" = some (JValue.str appl.mac)
          ∧ dictGet row "Model" = some (JValue.str appl.model)
          ∧ (∃ s, dictGet row "geolocation" = some (JValue.str s))
          ∧ (∀ label, (label = "WAN 1" ∨ label = "WAN 2" ∨ label = "Cellular") →
              ∀ col ∈ interfaceColumns label,
                ∃ v, dictGet row col = some v ∧ (v = JValue.null ∨ ∃ s, v = JValue.str s))
          ∧ (∀ p, perfscoreVal perfFetch = some p → dictGet row "Performance" = some p))
    ∧ (∀ (network device_info : Row) (dev : Device) (fields : List (String × JValue))
        (l : List JValue),
        (dictGet network "name").isSome = true →
        (deviceNameOf device_info).isSome = true →
        (dictGet network "timeZone").isSome = true →
        ∃ row, otherIteration network device_info dev (JValue.arr (JValue.obj fields :: l))
            = IterResult.row row
          ∧ (∃ s, dictGet row "TimeZone" = some (JValue.str s))
          ∧ dictGet row "Serial" = some (JValue.str dev.serial)
          ∧ dictGet row "MAC" = some (JValue.str dev.mac)
          ∧ dictGet row "Model" = some (JValue.str dev.model)
          ∧ (∀ col ∈ ["Status", "IP", "Gateway", "Public IP", "DNS", "VLAN", "Static"],
              ∃ v, dictGet row col = some v ∧ (v = JValue.null ∨ ∃ s, v = JValue.str s)))
    ∧ (∀ s, pyStr (JValue.str s) = s)
    ∧ pyStr (JValue.str "10.123.096.228") = "10.123.096.228" := by
  refine ⟨?_, ?_, fun s => rfl, rfl⟩
  · intro network device_info appl perfFetch xs hn hd hx
    obtain ⟨row, hrow, _, _, hB2, hE, hF, hSer, hMAC, hMod, hGeo⟩ :=
      applianceIteration_spec network device_info appl perfFetch xs hn hd hx
    exact ⟨row, hrow, hF, hSer, hMAC, hMod, hGeo, hE, hB2⟩
  · intro network device_info dev fields l hn hdn htz
    exact otherIteration_spec network device_info dev fields l hn hdn htz

/-- Witness for the amended C5: an appliance row with a numeric perfScore,
and an other-devices row from a one-entry uplink list. -/
theorem stringification_amended_witness :
    (∃ row, applianceIteration [("name", JValue.str "HQ"), ("timeZone", JValue.str "UTC")]
        [("serial", JValue.str "Q1"), ("firmware", JValue.str "fw"),
         ("lat", JValue.str "1"), ("lng", JValue.str "2")]
        (Device.mk "Q1" "aa:bb" "MX64" (some "N1"))
        (some (JValue.obj [("perfScore", JValue.num 10)]))
        (JValue.arr []) = some row
      ∧ (∃ s, dictGet row "TimeZone" = some (JValue.str s))
      ∧ dictGet row "Serial" = some (JValue.str (Device.mk "Q1" "aa:bb" "MX64" (some "N1")).serial)
      ∧ dictGet row "MAC" = some (JValue.str (Device.mk "Q1" "aa:bb" "MX64" (some "N1")).mac)
      ∧ dictGet row "Model" = some (JValue.str (Device.mk "Q1" "aa:bb" "MX64" (some "N1")).model)
      ∧ (∃ s, dictGet row "geolocation" = some (JValue.str s))
      ∧ (∀ label, (label = "WAN 1" ∨ label = "WAN 2" ∨ label = "Cellular") →
          ∀ col ∈ interfaceColumns label,
            ∃ v, dictGet row col = some v ∧ (v = JValue.null ∨ ∃ s, v = JValue.str s))
      ∧ (∀ p, perfscoreVal (some (JValue.obj [("perfScore", JValue.num 10)])) = some p →
          dictGet row "Performance" = some p))
    ∧ (∃ row, otherIteration [("name", JValue.str "HQ"), ("timeZone", JValue.str "UTC")]
        [("serial", JValue.str "Q1")] (Device.mk "Q1" "aa:bb" "MR33" (some "N1"))
        (JValue.arr [JValue.obj [("interface", JValue.str "wan0"),
          ("ip", JValue.str "10.123.096.228")]]) = IterResult.row row
      ∧ (∃ s, dictGet row "TimeZone" = some (JValue.str s))
      ∧ dictGet row "Serial" = some (JValue.str (Device.mk "Q1" "aa:bb" "MR33" (some "N1")).serial)
      ∧ dictGet row "MAC" = some (JValue.str (Device.mk "Q1" "aa:bb" "MR33" (some "N1")).mac)
      ∧ dictGet row "Model" = some (JValue.str (Device.mk "Q1" "aa:bb" "MR33" (some "N1")).model)
      ∧ (∀ col ∈ ["Status", "IP", "Gateway", "Public IP", "DNS", "VLAN", "Static"],
          ∃ v, dictGet row col = some v ∧ (v = JValue.null ∨ ∃ s, v = JValue.str s))) :=
  ⟨stringification_amended.1 _ _ _ _ _ rfl rfl (by intro u hu; cases hu),
   stringification_amended.2.1 _ _ _ _ [] rfl rfl rfl⟩

/-! ## C2: skip law for other devices -/

/-- C2: for an "other" device whose fetches succeed, an empty uplink list
makes the iteration skip — the loop emits zero rows for it and moves on to
the remaining devices; a non-empty list emits exactly one row, and that
row is the same one produced from the first entry alone (later entries are
ignored). -/
theorem other_skip_law (network device_info : Row) (dev : Device) (rest : List OtherInput)
    (hn : (dictGet network "name").isSome = true)
    (hdn : (deviceNameOf device_info).isSome = true)
    (htz : (dictGet network "timeZone").isSome = true) :
    (otherIteration network device_info dev (JValue.arr []) = IterResult.skip
      ∧ otherLoop (OtherInput.mk network device_info dev (JValue.arr []) :: rest) = otherLoop rest)
    ∧ (∀ fields l, ∃ row,
        otherIteration network device_info dev (JValue.arr (JValue.obj fields :: l))
          = IterResult.row row
        ∧ otherIteration network device_info dev (JValue.arr [JValue.obj fields])
          = IterResult.row row
        ∧ otherLoop (OtherInput.mk network device_info dev (JValue.arr (JValue.obj fields :: l)) :: rest)
            = (otherLoop rest).map (fun rows => row :: rows)) := by
  obtain ⟨nn, hnn⟩ := Option.isSome_iff_exists.mp hn
  obtain ⟨dn, hdn2⟩ := Option.isSome_iff_exists.mp hdn
  obtain ⟨tz, htz2⟩ := Option.isSome_iff_exists.mp htz
  have hskip : otherIteration network device_info dev (JValue.arr []) = IterResult.skip := by
    simp [otherIteration, hnn, hdn2]
  constructor
  · exact ⟨hskip, by simp [otherLoop, hskip]⟩
  · intro fields l
    obtain ⟨o1, ho1⟩ := Option.isSome_iff_exists.mp
      (dictGet_copyFields_isSome fields otherInitBucket "status" rfl)
    obtain ⟨o2, ho2⟩ := Option.isSome_iff_exists.mp
      (dictGet_copyFields_isSome fields otherInitBucket "ip" rfl)
    obtain ⟨o3, ho3⟩ := Option.isSome_iff_exists.mp
      (dictGet_copyFields_isSome fields otherInitBucket "gateway" rfl)
    obtain ⟨o4, ho4⟩ := Option.isSome_iff_exists.mp
      (dictGet_copyFields_isSome fields otherInitBucket "publicIp" rfl)
    obtain ⟨o5, ho5⟩ := Option.isSome_iff_exists.mp
      (dictGet_copyFields_isSome fields otherInitBucket "dns" rfl)
    obtain ⟨o6, ho6⟩ := Option.isSome_iff_exists.mp
      (dictGet_copyFields_isSome fields otherInitBucket "vlan" rfl)
    obtain ⟨o7, ho7⟩ := Option.isSome_iff_exists.mp
      (dictGet_copyFields_isSome fields otherInitBucket "usingStaticIp" rfl)
    have hread : readOther (copyFields otherInitBucket fields) = some ⟨o1, o2, o3, o4, o5, o6, o7⟩ :=
      readOther_eq _ _ _ _ _ _ _ _ ho1 ho2 ho3 ho4 ho5 ho6 ho7
    rcases hbuild : buildOtherRow tz nn dn dev (copyFields otherInitBucket fields) with _ | row
    · rw [buildOtherRow, hread] at hbuild
      simp at hbuild
    · have hit : otherIteration network device_info dev (JValue.arr (JValue.obj fields :: l))
          = IterResult.row row := by
        simp [otherIteration, hnn, hdn2, htz2, hbuild]
      have hit1 : otherIteration network device_info dev (JValue.arr [JValue.obj fields])
          = IterResult.row row := by
        simp [otherIteration, hnn, hdn2, htz2, hbuild]
      refine ⟨row, hit, hit1, ?_⟩
      cases hrest : otherLoop rest with
      | none => simp [otherLoop, hit, hrest]
      | some rows => simp [otherLoop, hit, hrest]

/-- Witness for C2: empty uplink list skips; a singleton list emits the
one row built from it. -/
theorem other_skip_law_witness :
    (otherIteration [("name", JValue.str "HQ"), ("timeZone", JValue.str "UTC")]
        [("serial", JValue.str "Q1")] (Device.mk "Q1" "aa:bb" "MR33" (some "N1"))
        (JValue.arr []) = IterResult.skip
      ∧ otherLoop [OtherInput.mk [("name", JValue.str "HQ"), ("timeZone", JValue.str "UTC")]
          [("serial", JValue.str "Q1")] (Device.mk "Q1" "aa:bb" "MR33" (some "N1"))
          (JValue.arr [])] = otherLoop [])
    ∧ (∀ fields l, ∃ row,
        otherIteration [("name", JValue.str "HQ"), ("timeZone", JValue.str "UTC")]
            [("serial", JValue.str "Q1")] (Device.mk "Q1" "aa:bb" "MR33" (some "N1"))
            (JValue.arr (JValue.obj fields :: l)) = IterResult.row row
        ∧ otherIteration [("name", JValue.str "HQ"), ("timeZone", JValue.str "UTC")]
            [("serial", JValue.str "Q1")] (Device.mk "Q1" "aa:bb" "MR33" (some "N1"))
            (JValue.arr [JValue.obj fields]) = IterResult.row row
        ∧ otherLoop [OtherInput.mk [("name", JValue.str "HQ"), ("timeZone", JValue.str "UTC")]
            [("serial", JValue.str "Q1")] (Device.mk "Q1" "aa:bb" "MR33" (some "N1"))
            (JValue.arr (JValue.obj fields :: l))]
            = (otherLoop []).map (fun rows => row :: rows)) :=
  other_skip_law _ _ _ [] rfl rfl rfl

/-! ## C10: duplicate interface labels, generalized to whole uplink lists -/

theorem uplinks_dispatch_append (us vs : List JValue) (info : UplinksInfo) :
    uplinks_dispatch info (us ++ vs) =
      match uplinks_dispatch info us with
      | none => none
      | some i => uplinks_dispatch i vs := by
  induction us generalizing info with
  | nil => rfl
  | cons u rest ih =>
    rw [List.cons_append]
    rcases h : applyUplink info u with _ | i
    · simp [uplinks_dispatch, h]
    · simp [uplinks_dispatch, h, ih i]

theorem applyUplink_labeled (info : UplinksInfo) (f : List (String × JValue)) (label : String)
    (hl : label = "WAN 1" ∨ label = "WAN 2" ∨ label = "Cellular")
    (hi : dictGet f "interface" = some (JValue.str label)) :
    ∃ info1, applyUplink info (JValue.obj f) = some info1
      ∧ bucketFor info1 label = copyFields (bucketFor info label) f := by
  rcases hl with rfl | rfl | rfl
  · exact ⟨{ info with wan1 := copyFields info.wan1 f },
      by simp [applyUplink, hi, isStrEq], by simp [bucketFor]⟩
  · exact ⟨{ info with wan2 := copyFields info.wan2 f },
      by simp [applyUplink, hi, isStrEq], by simp [bucketFor]⟩
  · exact ⟨{ info with cellular := copyFields info.cellular f },
      by simp [applyUplink, hi, isStrEq], by simp [bucketFor]⟩

theorem applyUplink_bucket_get_unchanged (info info1 : UplinksInfo) (u : JValue)
    (label k : String)
    (hl : label = "WAN 1" ∨ label = "WAN 2" ∨ label = "Cellular")
    (happ : applyUplink info u = some info1)
    (hirrel : interfaceLabelIs u label = false
      ∨ (∀ f, u = JValue.obj f → ∀ p ∈ f, p.1 ≠ k)) :
    dictGet (bucketFor info1 label) k = dictGet (bucketFor info label) k := by
  cases u with
  | obj fields =>
    rcases hv : dictGet fields "interface" with _ | v
    · simp [applyUplink, hv] at happ
    · simp only [applyUplink, hv] at happ
      rcases hirrel with hnolabel | hnokey
      · have hvl : isStrEq v label = false := by
          simpa [interfaceLabelIs, hv] using hnolabel
        split_ifs at happ with h1 h2 h3
        · obtain rfl := Option.some_inj.mp happ
          rcases hl with rfl | rfl | rfl
          · simp [h1] at hvl
          · simp [bucketFor]
          · simp [bucketFor]
        · obtain rfl := Option.some_inj.mp happ
          rcases hl with rfl | rfl | rfl
          · simp [bucketFor]
          · simp [h2] at hvl
          · simp [bucketFor]
        · obtain rfl := Option.some_inj.mp happ
          rcases hl with rfl | rfl | rfl
          · simp [bucketFor]
          · simp [bucketFor]
          · simp [h3] at hvl
        · obtain rfl := Option.some_inj.mp happ
          rfl
      · have hnk : ∀ p ∈ fields, p.1 ≠ k := hnokey fields rfl
        split_ifs at happ with h1 h2 h3
        · obtain rfl := Option.some_inj.mp happ
          rcases hl with rfl | rfl | rfl
          · simp only [bucketFor, reduceIte]
            exact dictGet_copyFields_not_mem fields _ k hnk
          · simp [bucketFor]
          · simp [bucketFor]
        · obtain rfl := Option.some_inj.mp happ
          rcases hl with rfl | rfl | rfl
          · simp [bucketFor]
          · simp only [bucketFor, reduceIte]
            exact dictGet_copyFields_not_mem fields _ k hnk
          · simp [bucketFor]
        · obtain rfl := Option.some_inj.mp happ
          rcases hl with rfl | rfl | rfl
          · simp [bucketFor]
          · simp [bucketFor]
          · simp only [bucketFor, reduceIte]
            exact dictGet_copyFields_not_mem fields _ k hnk
        · obtain rfl := Option.some_inj.mp happ
          rfl
  | null => simp [applyUplink] at happ
  | bool b => simp [applyUplink] at happ
  | num n => simp [applyUplink] at happ
  | str s => simp [applyUplink] at happ
  | arr xs => simp [applyUplink] at happ

theorem uplinks_dispatch_get_unchanged (us : List JValue) : ∀ info info2 : UplinksInfo,
    ∀ label k : String, (label = "WAN 1" ∨ label = "WAN 2" ∨ label = "Cellular") →
    uplinks_dispatch info us = some info2 →
    (∀ u ∈ us, interfaceLabelIs u label = false
      ∨ (∀ f, u = JValue.obj f → ∀ p ∈ f, p.1 ≠ k)) →
    dictGet (bucketFor info2 label) k = dictGet (bucketFor info label) k := by
  induction us with
  | nil =>
    intro info info2 label k _ hdisp _
    simp only [uplinks_dispatch, Option.some_inj] at hdisp
    rw [hdisp]
  | cons u rest ih =>
    intro info info2 label k hl hdisp hall
    rcases happ : applyUplink info u with _ | info1
    · simp only [uplinks_dispatch, happ] at hdisp
      exact Option.noConfusion hdisp
    · simp only [uplinks_dispatch, happ] at hdisp
      have h1 := applyUplink_bucket_get_unchanged info info1 u label k hl happ (hall u (by simp))
      have h2 := ih info1 info2 label k hl hdisp (fun q hq => hall q (by simp [hq]))
      rw [h2, h1]

/-- C10: in any dispatched uplink list holding two or more entries with
the same interface label — with arbitrary further entries before, between
or after the duplicates — a field present in both duplicates lands in that
label's bucket with the (stringified) value copied from the later entry:
last writer wins, with no error raised and no merging of the distinct
values.  (`hpost` pins the later duplicate as the last entry of the list
that both carries the label and the field.) -/
theorem duplicate_label_last_wins (info : UplinksInfo) (us pre mid post : List JValue)
    (f1 f2 : List (String × JValue)) (label k : String) (v1 v2 : JValue)
    (hl : label = "WAN 1" ∨ label = "WAN 2" ∨ label = "Cellular")
    (hus : us = pre ++ (JValue.obj f1 :: (mid ++ (JValue.obj f2 :: post))))
    (hgood : ∀ u ∈ us, goodUplinkEntry u = true)
    (hi1 : dictGet f1 "interface" = some (JValue.str label))
    (hi2 : dictGet f2 "interface" = some (JValue.str label))
    (hnd : (f2.map Prod.fst).Nodup)
    (hk1 : (k, v1) ∈ f1) (hk2 : (k, v2) ∈ f2)
    (hpost : ∀ u ∈ post, interfaceLabelIs u label = false
      ∨ (∀ f, u = JValue.obj f → ∀ p ∈ f, p.1 ≠ k)) :
    ∃ info2, uplinks_dispatch info us = some info2
      ∧ dictGet (bucketFor info2 label) k = some (JValue.str (pyStr v2)) := by
  subst hus
  have hgpre : ∀ u ∈ pre, goodUplinkEntry u = true := fun u hu => hgood u (by simp [hu])
  have hgmid : ∀ u ∈ mid, goodUplinkEntry u = true := fun u hu => hgood u (by simp [hu])
  have hgpost : ∀ u ∈ post, goodUplinkEntry u = true := fun u hu => hgood u (by simp [hu])
  obtain ⟨iA, hA, -⟩ := uplinks_dispatch_spec pre info hgpre
  obtain ⟨iB, hB, hBbucket⟩ := applyUplink_labeled iA f1 label hl hi1
  obtain ⟨iC, hC, -⟩ := uplinks_dispatch_spec mid iB hgmid
  obtain ⟨iD, hD, hDbucket⟩ := applyUplink_labeled iC f2 label hl hi2
  obtain ⟨info2, hE, -⟩ := uplinks_dispatch_spec post iD hgpost
  refine ⟨info2, ?_, ?_⟩
  · rw [uplinks_dispatch_append, hA]
    show uplinks_dispatch iA (JValue.obj f1 :: (mid ++ (JValue.obj f2 :: post))) = some info2
    simp only [uplinks_dispatch]
    rw [hB]
    show uplinks_dispatch iB (mid ++ (JValue.obj f2 :: post)) = some info2
    rw [uplinks_dispatch_append, hC]
    show uplinks_dispatch iC (JValue.obj f2 :: post) = some info2
    simp only [uplinks_dispatch]
    rw [hD]
    exact hE
  · have hlast : dictGet (bucketFor iD label) k = some (JValue.str (pyStr v2)) := by
      rw [hDbucket]
      exact dictGet_copyFields_mem f2 _ k v2 hnd hk2
    rw [uplinks_dispatch_get_unchanged post iD info2 label k hl hE hpost, hlast]

/-- Witness for C10: four entries — an early WAN 1 entry, an interleaved
WAN 2 entry, a later WAN 1 entry, and a trailing unknown-label entry; the
ip written by the later WAN 1 entry wins. -/
theorem duplicate_label_last_wins_witness :
    ∃ info2, uplinks_dispatch uplinks_info_init
        [JValue.obj [("interface", JValue.str "WAN 1"), ("ip", JValue.str "1.1.1.1")],
         JValue.obj [("interface", JValue.str "WAN 2"), ("status", JValue.str "Ready")],
         JValue.obj [("interface", JValue.str "WAN 1"), ("ip", JValue.str "2.2.2.2")],
         JValue.obj [("interface", JValue.str "WAN 3")]]
      = some info2
      ∧ dictGet (bucketFor info2 "WAN 1") "ip"
          = some (JValue.str (pyStr (JValue.str "2.2.2.2"))) :=
  duplicate_label_last_wins uplinks_info_init
    [JValue.obj [("interface", JValue.str "WAN 1"), ("ip", JValue.str "1.1.1.1")],
     JValue.obj [("interface", JValue.str "WAN 2"), ("status", JValue.str "Ready")],
     JValue.obj [("interface", JValue.str "WAN 1"), ("ip", JValue.str "2.2.2.2")],
     JValue.obj [("interface", JValue.str "WAN 3")]]
    [] [JValue.obj [("interface", JValue.str "WAN 2"), ("status", JValue.str "Ready")]]
    [JValue.obj [("interface", JValue.str "WAN 3")]]
    [("interface", JValue.str "WAN 1"), ("ip", JValue.str "1.1.1.1")]
    [("interface", JValue.str "WAN 1"), ("ip", JValue.str "2.2.2.2")]
    "WAN 1" "ip" (JValue.str "1.1.1.1") (JValue.str "2.2.2.2")
    (Or.inl rfl) rfl
    (by intro u hu; simp at hu; rcases hu with rfl | rfl | rfl | rfl <;> rfl)
    rfl rfl (by decide) (by simp) (by simp)
    (by intro u hu; simp at hu; subst hu; left; rfl)
